import Mathlib

/-!
# MyFitnessPal client: authentication and session lifecycle

A shallow embedding of `auth.go`, `user.go`, `myfitnesspal.go` and the search
of `food.go`.

* Go strings are Lean strings, byte slices are lists of naturals below 256.
* A Go function returning `(*T, error)` returns a `Run T`: either the two
  returned values, or a run-time panic.
* The network and the clock are an explicit `World`; every call that reaches
  the network is appended to the trace of the `Sys` state that is threaded
  through the functions.
* Libraries whose behaviour the repository does not define (JSON syntax, JWT
  signing, URL parsing) are the fields of `Lib`.
-/

namespace MFP

deriving instance DecidableEq for Except

/-! ## Machine integers and time -/

/-- Two's-complement wrap-around of an integer into the int64 range. -/
def wrapInt64 (x : Int) : Int :=
  (x + 9223372036854775808) % 18446744073709551616 - 9223372036854775808

/-- Largest int64, also the largest `time.Duration`. -/
def maxInt64 : Int := 9223372036854775807

/-- Smallest int64, also the smallest `time.Duration`. -/
def minInt64 : Int := -9223372036854775808

/-- Clamp an integer into the int64 range, as `Time.Sub` does for a
difference that does not fit a `time.Duration`. -/
def satInt64 (x : Int) : Int :=
  if x > maxInt64 then maxInt64 else if x < minInt64 then minInt64 else x

/-- The constant `time.Second`, in nanoseconds. -/
def timeSecond : Int := 1000000000

/-- The expression `time.Duration(n) * time.Second` for a Go `int` n on a
64-bit platform: an int64 product, which wraps around. -/
def durationSeconds (n : Int) : Int :=
  wrapInt64 (n * timeSecond)

/-- The method `Time.Add`: instants are nanoseconds since the Unix epoch. The
range of `time.Time` (int64 seconds) is not modelled. -/
def timeAdd (t d : Int) : Int := t + d

/-- The function `time.Until(t)` read at the instant `now`: `t.Sub(now)`,
which saturates at the ends of the `time.Duration` range. -/
def timeUntil (now t : Int) : Int := satInt64 (t - now)

/-! ## Strings and base64 -/

/-- Split a list of characters at every occurrence of `sep`. -/
def splitChars (sep : Char) : List Char → List (List Char)
  | [] => [[]]
  | c :: cs =>
    if c = sep then [] :: splitChars sep cs
    else
      match splitChars sep cs with
      | [] => [[c]]
      | p :: ps => (c :: p) :: ps

/-- The call `strings.Split(s, sep)` for a one-character separator (the only use
in the source is the separator "."). -/
def stringsSplit (s : String) (sep : Char) : List String :=
  (splitChars sep s.toList).map String.mk

/-- Whether `pat` is a leading segment of `s`. -/
def startsWithChars : List Char → List Char → Bool
  | [], _ => true
  | _ :: _, [] => false
  | p :: ps, c :: cs => p = c && startsWithChars ps cs

/-- Whether `pat` occurs somewhere in `s`. -/
def containsChars (pat : List Char) : List Char → Bool
  | [] => pat.isEmpty
  | c :: cs => startsWithChars pat (c :: cs) || containsChars pat cs

/-- The call `strings.Contains(s, substr)`. -/
def stringsContains (s substr : String) : Bool :=
  containsChars substr.toList s.toList

/-- The URL-safe base64 alphabet: the 6-bit value of a character, if any. -/
def urlSextet (c : Char) : Option Nat :=
  let n := c.toNat
  if 65 ≤ n ∧ n ≤ 90 then some (n - 65)
  else if 97 ≤ n ∧ n ≤ 122 then some (n - 97 + 26)
  else if 48 ≤ n ∧ n ≤ 57 then some (n - 48 + 52)
  else if c = '-' then some 62
  else if c = '_' then some 63
  else none

/-- The text of a `base64.CorruptInputError`. -/
def corruptInput (offset : Nat) : String :=
  "illegal base64 data at input byte " ++ toString offset

/-- The loop of `base64.RawURLEncoding.Decode` (no padding, not strict): `pos`
is the byte offset of the next character, `buf` holds the sextets of the
current quantum, most recent first, and `out` the decoded bytes, most recent
first. Carriage returns and line feeds are skipped; any other character
outside the alphabet is corrupt input; a final quantum of one sextet is
corrupt input; the unused low bits of a final short quantum are dropped. -/
def rawURLDecodeLoop : List Char → Nat → List Nat → List Nat → Except String (List Nat)
  | [], pos, buf, out =>
    match buf with
    | [] => .ok out.reverse
    | [_] => .error (corruptInput (pos - 1))
    | [b, a] => .ok ((((a * 64 + b) / 16) % 256) :: out).reverse
    | [c, b, a] =>
      let v := (a * 64 + b) * 64 + c
      .ok (((v / 4) % 256) :: ((v / 1024) % 256) :: out).reverse
    | _ => .error (corruptInput pos)
  | ch :: rest, pos, buf, out =>
    match urlSextet ch with
    | some v =>
      match buf with
      | [c, b, a] =>
        let w := ((a * 64 + b) * 64 + c) * 64 + v
        rawURLDecodeLoop rest (pos + 1) []
          ((w % 256) :: ((w / 256) % 256) :: ((w / 65536) % 256) :: out)
      | _ => rawURLDecodeLoop rest (pos + 1) (v :: buf) out
    | none =>
      if ch = '\n' ∨ ch = '\r' then rawURLDecodeLoop rest (pos + 1) buf out
      else .error (corruptInput pos)

/-- The call `base64.RawURLEncoding.DecodeString(s)`. -/
def rawURLDecode (s : String) : Except String (List Nat) :=
  rawURLDecodeLoop s.toList 0 [] []

/-- The standard base64 alphabet: the character of a 6-bit value. -/
def stdChar (n : Nat) : Char :=
  if n < 26 then Char.ofNat (65 + n)
  else if n < 52 then Char.ofNat (97 + (n - 26))
  else if n < 62 then Char.ofNat (48 + (n - 52))
  else if n = 62 then '+'
  else '/'

/-- The loop of `base64.StdEncoding.Encode`, with `=` padding. -/
def stdEncodeBytes : List Nat → List Char
  | [] => []
  | [a] => [stdChar (a / 4), stdChar ((a % 4) * 16), '=', '=']
  | [a, b] =>
    [stdChar (a / 4), stdChar ((a % 4) * 16 + b / 16), stdChar ((b % 16) * 4), '=']
  | a :: b :: c :: rest =>
    stdChar (a / 4) :: stdChar ((a % 4) * 16 + b / 16) ::
      stdChar ((b % 16) * 4 + c / 64) :: stdChar (c % 64) :: stdEncodeBytes rest

/-- The bytes of a Go string: its UTF-8 encoding. -/
def stringBytes (s : String) : List Nat :=
  s.toList.flatMap (fun c => (String.utf8EncodeChar c).map UInt8.toNat)

/-- The call `base64.StdEncoding.EncodeToString([]byte(s))`. -/
def stdEncodeToString (s : String) : String :=
  String.mk (stdEncodeBytes (stringBytes s))

/-! ## Data model -/

/-- The struct `ClientKey` of auth.go; the nested `Key` and `Timestamps` structs
are flattened. -/
structure ClientKey where
  Kty : String
  Use : String
  Kid : String
  K : String
  Alg : String
  ClientID : String
  KeyID : String
  Created : String
  Updated : String
deriving DecidableEq, Repr

/-- The struct `TokenResponse` of auth.go. `ExpiresIn` is a Go `int`. -/
structure TokenResponse where
  AccessToken : String
  TokenType : String
  ExpiresIn : Int
  RefreshToken : String
  IDToken : String
  Data : String
deriving DecidableEq, Repr

/-- The struct `UserSession` of auth.go. `ExpiresAt` is an instant in
nanoseconds since the Unix epoch. -/
structure UserSession where
  UserID : String
  Email : String
  FirstName : String
  LastName : String
  DomainUserID : String
  AccessToken : String
  RefreshToken : String
  IDToken : String
  Data : String
  ExpiresAt : Int
deriving DecidableEq, Repr

/-- The struct `UserProfile` of user.go, without its two float64 fields
(weight and height), which no function of the session lifecycle reads.
`LastName` is a `*string`. -/
structure UserProfile where
  FullName : String
  DisplayName : String
  FirstName : String
  LastName : Option String
  ProfilePictureURI : String
  Birthdate : String
  Gender : String
  Locale : String
  PostalCode : String
  Country : String
deriving DecidableEq, Repr

/-- An element of `User.ProfileEmails.Emails`. -/
structure EmailEntry where
  Email : String
  Verified : Bool
  Primary : Bool
deriving DecidableEq, Repr

/-- An element of `User.AccountLinks`; the timestamp, consent and advertising
fields, which no function reads, are left out. -/
structure AccountLink where
  UserID : Int
  Domain : String
  DomainUserID : String
deriving DecidableEq, Repr

/-- The struct `User` of user.go; `ProfileEmails` is flattened. -/
structure User where
  UserID : Int
  Domain : String
  Region : String
  Status : String
  Profile : UserProfile
  IsEmailVerified : Bool
  Emails : List EmailEntry
  AccountLinks : List AccountLink
deriving DecidableEq, Repr

/-- The struct `Client` of myfitnesspal.go without its two resty clients, which
are represented by the `World`. `clientToken` is a pointer and `signingKey` a
slice: both are nil (none) until `NewClient` sets them. -/
structure Client where
  clientID : String
  clientSecret : String
  deviceID : String
  clientToken : Option TokenResponse
  signingKey : Option (List Nat)
  keyID : String
deriving DecidableEq, Repr

/-! ## The environment: libraries, network, clock -/

/-- A parsed JSON text. Numbers keep their source text. -/
inductive Json where
  | null
  | bool (b : Bool)
  | num (text : String)
  | str (s : String)
  | arr (items : List Json)
  | obj (members : List (String × Json))

/-- A `jwt.Token` before signing: signing method name, header and claims. -/
structure JwtToken where
  method : String
  header : List (String × String)
  claims : List (String × String)
deriving DecidableEq, Repr

/-- Library behaviour that the repository relies on and does not define. -/
structure Lib where
  /-- The syntax pass of `json.Unmarshal`: the parsed value, or the text of the
  syntax error. -/
  jsonParse : List Nat → Except String Json
  /-- The text of the `json.UnmarshalTypeError` raised when a JSON value of the
  given kind meets a Go value that cannot hold it. -/
  jsonTypeError : String → String
  /-- The method `Token.SignedString(key)` of golang-jwt. -/
  signedString : JwtToken → List Nat → Except String String
  /-- The call `url.Parse(location)`, reduced to the raw query of the parsed URL. -/
  urlParse : String → Except String String
  /-- The call `Query().Get(key)` on a parsed URL with the given raw query. -/
  queryGet : String → String → String

/-- An HTTP request as the service sees it. `form` is the decoded form body in
the key order of `url.Values.Encode`; `noRedirect` tells that it goes through
a client built with `resty.NoRedirectPolicy`; `query` holds the decoded query
parameters that resty adds to the URL, in the same key order (empty for the
requests that set none). -/
structure Request where
  method : String
  baseURL : String
  path : String
  headers : List (String × String)
  form : List (String × String)
  noRedirect : Bool
  query : List (String × String) := []
deriving DecidableEq, Repr

/-- What a resty call leaves behind: status code, the `Location` header (empty
when absent), the body text, and the value stored in the `SetResult` target
(its zero value when resty did not decode the body). -/
structure Response (α : Type) where
  status : Int
  location : String
  body : String
  result : α
deriving DecidableEq, Repr

/-- The pair `(resp, err)` of a resty call: `response` when `err == nil`,
`failure` with the text of `err.Error()` otherwise. -/
inductive HttpResult (α : Type) where
  | response (r : Response α)
  | failure (text : String) (r : Response α)
deriving DecidableEq, Repr

/-- The world outside the process: the readings of `time.Now()` in call
order, and the answer of each endpoint of the identity service, and of the
search endpoint of the domain API, to a request, given the requests sent
before it. -/
structure World where
  clock : Nat → Int
  token : List Request → Request → HttpResult TokenResponse
  clientKeys : List Request → Request → HttpResult (List ClientKey)
  authorize : List Request → Request → HttpResult Unit
  users : List Request → Request → HttpResult User
  search : List Request → Request → HttpResult Unit

/-- The observable state of a run: the requests sent so far, oldest first, and
the number of clock readings taken. -/
structure Sys where
  trace : List Request
  ticks : Nat
deriving DecidableEq, Repr

/-- The outcome of a Go function of type `(*T, error)`: the two returned
values (none is nil), or a run-time panic. -/
inductive Run (α : Type) where
  | returned (val : Option α) (err : Option String)
  | panicked (msg : String)
deriving DecidableEq, Repr

/-- The call `time.Now()`. -/
def timeNow (w : World) (st : Sys) : Int × Sys :=
  (w.clock st.ticks, { st with ticks := st.ticks + 1 })

/-- Send a request to an endpoint: the answer depends on the requests sent
before, and the request joins the trace. -/
def send {α : Type} (endpoint : List Request → Request → HttpResult α)
    (req : Request) (st : Sys) : HttpResult α × Sys :=
  (endpoint st.trace req, { st with trace := st.trace ++ [req] })

/-! ## Constants and request helpers (myfitnesspal.go) -/

def identityBaseURL : String := "https://identity-api.myfitnesspal.com"

def apiBaseURL : String := "https://api.myfitnesspal.com"

def userAgent : String :=
  "MyFitnessPal/25.19.0 (mfp-mobile-android-google) (Android 11; Pixel 5 / Android Android SDK built for arm64) (preload=false;locale=en_US)"

def apiVersion : String := "2.0.50"

/-- The method `Request.SetHeader`: a later value for a key replaces the earlier
one. Keys are kept and compared as the source writes them; the canonical
spelling that net/http gives them is not modelled. -/
def setHeader (k v : String) (hs : List (String × String)) : List (String × String) :=
  (hs.filter (fun kv => kv.1 != k)) ++ [(k, v)]

/-- The method `Values.Set`. -/
def valuesSet (k v : String) (vs : List (String × String)) : List (String × String) :=
  (vs.filter (fun kv => kv.1 != k)) ++ [(k, v)]

/-- Insert a pair into a list sorted by key. -/
def insertByKey (kv : String × String) : List (String × String) → List (String × String)
  | [] => [kv]
  | x :: xs => if kv.1 < x.1 then kv :: x :: xs else x :: insertByKey kv xs

/-- The method `Values.Encode`, up to percent-encoding: the pairs sorted by key. -/
def valuesEncode (vs : List (String × String)) : List (String × String) :=
  vs.foldl (fun acc kv => insertByKey kv acc) []

/-- The method `Client.setStandardHeaders`. -/
def setStandardHeaders (c : Client) (hs : List (String × String))
    (session : Option UserSession) : List (String × String) :=
  let hs := setHeader "Accept" "application/json" hs
  let hs := setHeader "Content-Type" "application/json" hs
  let hs := setHeader "user-agent" userAgent hs
  let hs := setHeader "device_id" c.deviceID hs
  let hs := setHeader "mfp-device-id" c.deviceID hs
  let hs := setHeader "mfp-client-id" "mfp-mobile-android-google" hs
  let hs := setHeader "api-version" apiVersion hs
  let hs := setHeader "accept-language" "en-US" hs
  let hs := setHeader "accept-encoding" "gzip" hs
  match session with
  | some s =>
    let hs := setHeader "Authorization" ("Bearer " ++ s.AccessToken) hs
    setHeader "mfp-user-id" s.DomainUserID hs
  | none => hs

/-! ## JSON decoding of the ID-token claims -/

/-- The name of the kind of a JSON value, as a `json.UnmarshalTypeError` reports it. -/
def jsonKind : Json → String
  | .null => "null"
  | .bool _ => "bool"
  | .num _ => "number"
  | .str _ => "string"
  | .arr _ => "array"
  | .obj _ => "object"

/-- Whether an object key selects the field tagged `json:"sub"`: encoding/json
takes the exact name, or else a name equal to it under simple case folding
(the fold orbit of s also holds the long s, U+017F). -/
def matchesSub (key : String) : Bool :=
  match key.toList with
  | [a, b, c] =>
    (a = 's' || a = 'S' || a = Char.ofNat 383) && (b = 'u' || b = 'U') && (c = 'b' || c = 'B')
  | _ => false

/-- Decoding the members of a JSON object into `struct { Sub string }`: a string
value of a matching key is stored, a null leaves the field as it is, any other
value of a matching key is a type error; the first error is kept and decoding
goes on. Returns the field and the saved error. -/
def storeMembers (lib : Lib) : List (String × Json) → String → Option String → String × Option String
  | [], sub, saved => (sub, saved)
  | (k, v) :: rest, sub, saved =>
    if matchesSub k then
      match v with
      | .str s => storeMembers lib rest s saved
      | .null => storeMembers lib rest sub saved
      | other =>
        match saved with
        | some e => storeMembers lib rest sub (some e)
        | none => storeMembers lib rest sub (some (lib.jsonTypeError (jsonKind other)))
    else storeMembers lib rest sub saved

/-- The call `json.Unmarshal(payload, &claims)` for `claims` of type
`struct { Sub string }`, starting from the zero value: the value of `claims.Sub`
afterwards, or the text of the error. -/
def jsonUnmarshalClaims (lib : Lib) (payload : List Nat) : Except String String :=
  match lib.jsonParse payload with
  | .error e => .error e
  | .ok (.obj members) =>
    match storeMembers lib members "" none with
    | (_, some e) => .error e
    | (sub, none) => .ok sub
  | .ok .null => .ok ""
  | .ok other => .error (lib.jsonTypeError (jsonKind other))

/-! ## auth.go and user.go -/

/-- The method `Client.GetClientKeys`. -/
def GetClientKeys (w : World) (c : Client) (st : Sys) : Run (List ClientKey) × Sys :=
  let auth := stdEncodeToString (c.clientID ++ ":" ++ c.clientSecret)
  let headers := setStandardHeaders c [] none
  let headers := setHeader "Authorization" ("Basic " ++ auth) headers
  let req : Request :=
    { method := "GET", baseURL := identityBaseURL, path := "/clientKeys",
      headers := headers, form := [], noRedirect := false }
  match send w.clientKeys req st with
  | (.failure text _, st1) => (.returned none (some ("error making request: " ++ text)), st1)
  | (.response resp, st1) =>
    if resp.status ≠ 200 then
      (.returned none (some ("unexpected status code: " ++ toString resp.status)), st1)
    else (.returned (some resp.result) none, st1)

/-- The method `Client.GetClientCredentialsToken`. -/
def GetClientCredentialsToken (w : World) (c : Client) (st : Sys) : Run TokenResponse × Sys :=
  let data := valuesSet "client_id" c.clientID []
  let data := valuesSet "client_secret" c.clientSecret data
  let data := valuesSet "grant_type" "client_credentials" data
  let headers := setStandardHeaders c [] none
  let headers := setHeader "Content-Type" "application/x-www-form-urlencoded" headers
  let req : Request :=
    { method := "POST", baseURL := identityBaseURL, path := "/oauth/token",
      headers := headers, form := valuesEncode data, noRedirect := false }
  match send w.token req st with
  | (.failure text _, st1) => (.returned none (some ("error making request: " ++ text)), st1)
  | (.response resp, st1) =>
    if resp.status ≠ 200 then
      (.returned none (some ("unexpected status code: " ++ toString resp.status)), st1)
    else (.returned (some resp.result) none, st1)

/-- The request that `GetUser` sends for a session. -/
def userRequest (c : Client) (session : UserSession) : Request :=
  let headers := setStandardHeaders c [] (some session)
  { method := "GET", baseURL := identityBaseURL,
    path := "/users/" ++ session.UserID ++ "?fetch_profile=true&fetch_emails=true",
    headers := headers, form := [], noRedirect := false }

/-- The method `Client.GetUser` of user.go. -/
def GetUser (w : World) (c : Client) (session : UserSession) (st : Sys) : Run User × Sys :=
  match send w.users (userRequest c session) st with
  | (.failure text _, st1) => (.returned none (some ("error making request: " ++ text)), st1)
  | (.response resp, st1) =>
    if resp.status ≠ 200 then
      (.returned none
        (some ("unexpected status code: " ++ toString resp.status ++ ", body: " ++ resp.body)), st1)
    else (.returned (some resp.result) none, st1)

/-- The loop over `user.AccountLinks` in `createSessionFromTokenResponse`: the
domain user id of the first link of domain MFP, else the value held before. -/
def scanAccountLinks : List AccountLink → String → String
  | [], domainUserID => domainUserID
  | link :: rest, domainUserID =>
    if link.Domain = "MFP" then link.DomainUserID else scanAccountLinks rest domainUserID

/-- The initial session of `createSessionFromTokenResponse` (lines 145 to 152),
built at the instant `now`. -/
def initialSession (userID : String) (tokenResp : TokenResponse) (now : Int) : UserSession :=
  { UserID := userID, Email := "", FirstName := "", LastName := "", DomainUserID := "",
    AccessToken := tokenResp.AccessToken, RefreshToken := tokenResp.RefreshToken,
    IDToken := tokenResp.IDToken, Data := tokenResp.Data,
    ExpiresAt := timeAdd now (durationSeconds tokenResp.ExpiresIn) }

/-- Lines 144 to 177 of `createSessionFromTokenResponse`: everything after the
user ID is resolved. -/
def buildSession (w : World) (c : Client) (userID : String) (tokenResp : TokenResponse)
    (st : Sys) : Run UserSession × Sys :=
  let (now, st1) := timeNow w st
  let session := initialSession userID tokenResp now
  match GetUser w c session st1 with
  | (.panicked msg, st2) => (.panicked msg, st2)
  | (.returned _ (some e), st2) => (.returned none (some ("error getting user info: " ++ e)), st2)
  | (.returned none none, st2) => (.panicked "nil pointer dereference", st2)
  | (.returned (some user) none, st2) =>
    let session := { session with
      DomainUserID := scanAccountLinks user.AccountLinks session.DomainUserID }
    match user.Emails with
    | [] => (.panicked "index out of range [0] with length 0", st2)
    | first :: _ =>
      let session := { session with Email := first.Email, FirstName := user.Profile.FirstName }
      let session :=
        match user.Profile.LastName with
        | some lastName => { session with LastName := lastName }
        | none => session
      if session.DomainUserID = "" then
        (.returned none (some "no domain user ID found in account links"), st2)
      else (.returned (some session) none, st2)

/-- The method `Client.createSessionFromTokenResponse`. -/
def createSessionFromTokenResponse (lib : Lib) (w : World) (c : Client) (mfpUserID : String)
    (tokenResp : TokenResponse) (st : Sys) : Run UserSession × Sys :=
  let parts := stringsSplit tokenResp.IDToken '.'
  if mfpUserID = "" ∧ parts.length ≠ 3 then
    (.returned none (some "invalid token format"), st)
  else if mfpUserID = "" then
    match parts[1]? with
    | none => (.panicked "index out of range [1]", st)
    | some segment =>
      match rawURLDecode segment with
      | .error e => (.returned none (some ("error decoding token payload: " ++ e)), st)
      | .ok payload =>
        match jsonUnmarshalClaims lib payload with
        | .error e => (.returned none (some ("error parsing token claims: " ++ e)), st)
        | .ok sub => buildSession w c sub tokenResp st
  else buildSession w c mfpUserID tokenResp st

/-- The method `Client.ExchangeCodeForToken`. -/
def ExchangeCodeForToken (w : World) (c : Client) (code : String) (st : Sys) :
    Run TokenResponse × Sys :=
  let data := valuesSet "grant_type" "authorization_code" []
  let data := valuesSet "code" code data
  let data := valuesSet "client_id" c.clientID data
  let data := valuesSet "client_secret" c.clientSecret data
  let data := valuesSet "redirect_uri" "mfp://identity/callback" data
  let headers := setStandardHeaders c [] none
  let headers := setHeader "Content-Type" "application/x-www-form-urlencoded" headers
  let req : Request :=
    { method := "POST", baseURL := identityBaseURL, path := "/oauth/token",
      headers := headers, form := valuesEncode data, noRedirect := false }
  match send w.token req st with
  | (.failure text _, st1) => (.returned none (some ("error making request: " ++ text)), st1)
  | (.response resp, st1) =>
    if resp.status ≠ 200 then
      (.returned none (some ("unexpected status code: " ++ toString resp.status)), st1)
    else (.returned (some resp.result) none, st1)

/-- The call `jwt.NewWithClaims(method, claims)`: the header holds the type and
the algorithm of the method. -/
def jwtNewWithClaims (method : String) (claims : List (String × String)) : JwtToken :=
  { method := method, header := [("typ", "JWT"), ("alg", method)], claims := claims }

/-- The method `Time.UnixNano`: an int64, so it wraps outside the years 1678 to 2262. -/
def unixNano (t : Int) : Int := wrapInt64 t

/-- The request that `Login` posts to /oauth/authorize. -/
def authorizeRequest (c : Client) (clientToken : TokenResponse) (credentials : String)
    (now : Int) : Request :=
  let data := valuesSet "client_id" c.clientID []
  let data := valuesSet "credentials" credentials data
  let data := valuesSet "nonce" (toString (unixNano now)) data
  let data := valuesSet "redirect_uri" "mfp://identity/callback" data
  let data := valuesSet "response_type" "code" data
  let data := valuesSet "scope" "openid" data
  let headers := setStandardHeaders c [] none
  let headers := setHeader "Content-Type" "application/x-www-form-urlencoded" headers
  let headers := setHeader "Authorization" ("Bearer " ++ clientToken.AccessToken) headers
  { method := "POST", baseURL := identityBaseURL, path := "/oauth/authorize",
    headers := headers, form := valuesEncode data, noRedirect := true }

/-- The token that `Login` signs (lines 183 to 190). -/
def loginToken (c : Client) (username password : String) : JwtToken :=
  let claims := [("password", password), ("username", username)]
  let token := jwtNewWithClaims "HS512" claims
  { token with header := setHeader "kid" c.keyID token.header }

/-- The method `Client.Login`. -/
def Login (lib : Lib) (w : World) (c : Client) (username password : String) (st : Sys) :
    Run UserSession × Sys :=
  match lib.signedString (loginToken c username password) (c.signingKey.getD []) with
  | .error e => (.returned none (some ("error signing token: " ++ e)), st)
  | .ok credentials =>
    let (now, st1) := timeNow w st
    match c.clientToken with
    | none => (.panicked "nil pointer dereference", st1)
    | some clientToken =>
      match send w.authorize (authorizeRequest c clientToken credentials now) st1 with
      | (.failure text resp, st2) =>
        if stringsContains text "auto redirect is disabled" then
          let location := resp.location
          if location = "" then
            (.returned none (some "no location header in response"), st2)
          else
            match lib.urlParse location with
            | .error e => (.returned none (some ("error parsing redirect URL: " ++ e)), st2)
            | .ok rawQuery =>
              let code := lib.queryGet rawQuery "code"
              if code = "" then
                (.returned none (some "no code in redirect URL"), st2)
              else
                match ExchangeCodeForToken w c code st2 with
                | (.panicked msg, st3) => (.panicked msg, st3)
                | (.returned _ (some e), st3) =>
                  (.returned none (some ("error exchanging code for token: " ++ e)), st3)
                | (.returned none none, st3) => (.panicked "nil pointer dereference", st3)
                | (.returned (some tokenResp) none, st3) =>
                  createSessionFromTokenResponse lib w c "" tokenResp st3
        else (.returned none (some ("error making request: " ++ text)), st2)
      | (.response resp, st2) =>
        (.returned none (some ("unexpected response status: " ++ toString resp.status)), st2)

/-- The refresh-grant request of `RefreshUserToken` (lines 262 to 278). -/
def refreshRequest (c : Client) (refreshToken : String) : Request :=
  let data := valuesSet "grant_type" "refresh_token" []
  let data := valuesSet "refresh_token" refreshToken data
  let data := valuesSet "client_id" c.clientID data
  let data := valuesSet "client_secret" c.clientSecret data
  let headers := setStandardHeaders c [] none
  let headers := setHeader "Content-Type" "application/x-www-form-urlencoded" headers
  { method := "POST", baseURL := identityBaseURL, path := "/oauth/token",
    headers := headers, form := valuesEncode data, noRedirect := false }

/-- The method `Client.RefreshUserToken`. -/
def RefreshUserToken (lib : Lib) (w : World) (c : Client) (mfpUserID refreshToken : String)
    (st : Sys) : Run UserSession × Sys :=
  if refreshToken = "" then
    (.returned none (some "no refresh token provided"), st)
  else
    match send w.token (refreshRequest c refreshToken) st with
    | (.failure text _, st1) => (.returned none (some ("error making request: " ++ text)), st1)
    | (.response resp, st1) =>
      if resp.status ≠ 200 then
        (.returned none (some ("unexpected status code: " ++ toString resp.status)), st1)
      else createSessionFromTokenResponse lib w c mfpUserID resp.result st1

/-- The method `Client.IsTokenExpired`, which does not use its receiver;
`time.Until` reads the clock once. -/
def IsTokenExpired (w : World) (expiresIn : Int) (createdAt : Int) (st : Sys) : Bool × Sys :=
  let expiry := timeAdd createdAt (durationSeconds expiresIn)
  let (now, st1) := timeNow w st
  (decide (timeUntil now expiry < 30 * timeSecond), st1)

/-! ## myfitnesspal.go: construction -/

/-- The verb `%x` of fmt for an int64. -/
def formatHex (n : Int) : String :=
  if n < 0 then "-" ++ String.mk (Nat.toDigits 16 n.natAbs)
  else String.mk (Nat.toDigits 16 n.toNat)

/-- The test of the loop in `NewClient`: use sig and algorithm HS512. -/
def isSigningKey (key : ClientKey) : Bool :=
  key.Use = "sig" && key.Alg = "HS512"

/-- The loop over the advertised keys in `NewClient`: at the first candidate
with use sig and algorithm HS512 the key is decoded and the loop ends; a key
that does not decode ends construction with an error. -/
def findSigningKey : List ClientKey → Client → Except String Client
  | [], client => .ok client
  | key :: rest, client =>
    if isSigningKey key then
      match rawURLDecode key.K with
      | .error e => .error ("error decoding signing key: " ++ e)
      | .ok signingKey => .ok { client with signingKey := some signingKey, keyID := key.Kid }
    else findSigningKey rest client

/-- Lines 51 to 71 of `NewClient`: the client before any network call, with a
device ID made of five clock readings. -/
def newClientValue (w : World) (clientID clientSecret : String) (st : Sys) : Client × Sys :=
  let (t1, st) := timeNow w st
  let (t2, st) := timeNow w st
  let (t3, st) := timeNow w st
  let (t4, st) := timeNow w st
  let (t5, st) := timeNow w st
  let deviceID := formatHex (unixNano t1) ++ "-" ++ formatHex (unixNano t2 >>> 32) ++ "-" ++
    formatHex (unixNano t3 >>> 16) ++ "-" ++ formatHex (unixNano t4 >>> 8) ++ "-" ++
    formatHex (unixNano t5)
  ({ clientID := clientID, clientSecret := clientSecret, deviceID := deviceID,
     clientToken := none, signingKey := none, keyID := "" }, st)

/-- The function `NewClient`. -/
def NewClient (w : World) (clientID clientSecret : String) (st : Sys) : Run Client × Sys :=
  let (client, st) := newClientValue w clientID clientSecret st
  match GetClientCredentialsToken w client st with
  | (.panicked msg, st1) => (.panicked msg, st1)
  | (.returned _ (some e), st1) =>
    (.returned none (some ("error getting client credentials token: " ++ e)), st1)
  | (.returned clientToken none, st1) =>
    let client := { client with clientToken := clientToken }
    match GetClientKeys w client st1 with
    | (.panicked msg, st2) => (.panicked msg, st2)
    | (.returned _ (some e), st2) =>
      (.returned none (some ("error getting client keys: " ++ e)), st2)
    | (.returned keys none, st2) =>
      match findSigningKey (keys.getD []) client with
      | .error e => (.returned none (some e), st2)
      | .ok client =>
        match client.signingKey with
        | none => (.returned none (some "no signing key found"), st2)
        | some _ => (.returned (some client) none, st2)

/-! ## food.go: search -/

/-- The struct `FoodSearchResult` of food.go with its nested `Item` flattened;
the nutritional contents and the serving sizes, which are float64 data, are
left out, and the two fields named Type are `ItemType` and `ResultType`. -/
structure FoodSearchResult where
  HealthLabels : List String
  BrandName : String
  BrandedWithBarcode : Bool
  CountryCode : String
  Deleted : Bool
  Description : String
  ID : String
  Public : Bool
  ItemType : String
  UserID : String
  Verified : Bool
  Version : String
  Tags : List String
  ResultType : String
deriving DecidableEq, Repr

/-- The struct `SearchFoodRequest` of food.go; the three pointer fields are nil
when none. -/
structure SearchFoodRequest where
  Query : String
  Scope : Option String
  MaxItems : Option Int
  CountryCode : Option String
deriving DecidableEq, Repr

/-- The request that `SearchFood` sends (lines 251 to 281): the query
parameters of the map, then the six calls of `SetQueryParam` for the key
fields[], each of which replaces the value set before, then the standard
headers and the flow id. -/
def searchRequest (c : Client) (session : Option UserSession) (query scope : String)
    (maxItems : Int) (countryCode : Option String) (flowID : String) : Request :=
  let queryParams := valuesSet "q" query []
  let queryParams := valuesSet "scope" scope queryParams
  let queryParams := valuesSet "max_items" (toString maxItems) queryParams
  let queryParams := valuesSet "resource_type[]" "foods" queryParams
  let queryParams :=
    match countryCode with
    | some code => valuesSet "country_code" code queryParams
    | none => queryParams
  let queryParams := valuesSet "fields[]" "id" queryParams
  let queryParams := valuesSet "fields[]" "nutritional_contents" queryParams
  let queryParams := valuesSet "fields[]" "serving_sizes" queryParams
  let queryParams := valuesSet "fields[]" "version" queryParams
  let queryParams := valuesSet "fields[]" "brand_name" queryParams
  let queryParams := valuesSet "fields[]" "description" queryParams
  let headers := setStandardHeaders c [] session
  let headers := setHeader "mfp-flow-id" flowID headers
  { method := "GET", baseURL := apiBaseURL, path := "/v2/search/nutrition",
    headers := headers, form := [], noRedirect := false, query := valuesEncode queryParams }

/-- The flow id of `SearchFood` (lines 276 to 281): five clock readings. -/
def searchFlowID (w : World) (st : Sys) : String × Sys :=
  let (t1, st) := timeNow w st
  let (t2, st) := timeNow w st
  let (t3, st) := timeNow w st
  let (t4, st) := timeNow w st
  let (t5, st) := timeNow w st
  (formatHex (unixNano t1) ++ "-" ++ formatHex (unixNano t2 >>> 32) ++ "-" ++
    formatHex (unixNano t3 >>> 16) ++ "-" ++ formatHex (unixNano t4 >>> 8) ++ "-" ++
    formatHex (unixNano t5), st)

/-- The value that the caller's scope variable holds after `SearchFood`: line
242 writes through the pointer, so a non-nil scope reads all afterwards. -/
def scopeAfterSearch (params : SearchFoodRequest) : Option String :=
  match params.Scope with
  | some _ => some "all"
  | none => none

/-- The method `Client.SearchFood`. `unmarshalItems` is the call
`json.Unmarshal(resp.Body(), &result)` followed by the read of `result.Items`
(none is a nil slice). The write through the scope pointer is also given by
`scopeAfterSearch`. -/
def SearchFood (unmarshalItems : String → Except String (Option (List FoodSearchResult)))
    (w : World) (c : Client) (session : Option UserSession) (params : SearchFoodRequest)
    (st : Sys) : Run (List FoodSearchResult) × Sys :=
  let maxItems : Int :=
    match params.MaxItems with
    | none => 25
    | some n => n
  let scopePointer : Option String :=
    match params.Scope with
    | some _ => some "all"
    | none => none
  match scopePointer with
  | none => (.panicked "nil pointer dereference", st)
  | some scope =>
    if scope ≠ "all" ∧ scope ≠ "user" then
      (.returned none (some ("invalid scope: " ++ scope ++ ". Must be 'all' or 'user'")), st)
    else
      let (flowID, st1) := searchFlowID w st
      match send w.search
          (searchRequest c session params.Query scope maxItems params.CountryCode flowID) st1 with
      | (.failure text _, st2) =>
        (.returned none (some ("failed to make search request: " ++ text)), st2)
      | (.response resp, st2) =>
        if resp.status ≠ 200 then
          (.returned none
            (some ("search request failed with status " ++ toString resp.status ++ ": " ++
              resp.body)), st2)
        else
          match unmarshalItems resp.body with
          | .error e => (.returned none (some ("failed to parse search response: " ++ e)), st2)
          | .ok items => (.returned items none, st2)

/-! ## The code exchange request and the signed credentials -/

/-- The request that `ExchangeCodeForToken` sends for a code (lines 301 to 318). -/
def exchangeRequest (c : Client) (code : String) : Request :=
  let data := valuesSet "grant_type" "authorization_code" []
  let data := valuesSet "code" code data
  let data := valuesSet "client_id" c.clientID data
  let data := valuesSet "client_secret" c.clientSecret data
  let data := valuesSet "redirect_uri" "mfp://identity/callback" data
  let headers := setStandardHeaders c [] none
  let headers := setHeader "Content-Type" "application/x-www-form-urlencoded" headers
  { method := "POST", baseURL := identityBaseURL, path := "/oauth/token",
    headers := headers, form := valuesEncode data, noRedirect := false }

/-- The URL-safe base64 alphabet: the character of a 6-bit value. -/
def urlChar (n : Nat) : Char :=
  if n < 26 then Char.ofNat (65 + n)
  else if n < 52 then Char.ofNat (97 + (n - 26))
  else if n < 62 then Char.ofNat (48 + (n - 52))
  else if n = 62 then '-'
  else '_'

/-- The loop of `base64.RawURLEncoding.Encode`: no padding. -/
def rawURLEncodeBytes : List Nat → List Char
  | [] => []
  | [a] => [urlChar (a / 4), urlChar ((a % 4) * 16)]
  | [a, b] => [urlChar (a / 4), urlChar ((a % 4) * 16 + b / 16), urlChar ((b % 16) * 4)]
  | a :: b :: c :: rest =>
    urlChar (a / 4) :: urlChar ((a % 4) * 16 + b / 16) ::
      urlChar ((b % 16) * 4 + c / 64) :: urlChar (c % 64) :: rawURLEncodeBytes rest

/-- The call `base64.RawURLEncoding.EncodeToString(bytes)`, which is the method
`Token.EncodeSegment` of golang-jwt. -/
def rawURLEncodeToString (bytes : List Nat) : String :=
  String.mk (rawURLEncodeBytes bytes)

/-- What golang-jwt and the standard library contribute to `SignedString` for
the method HS512: the JSON text of a header or claim map, and HMAC-SHA-512 of
a message under a key. -/
structure JwtCodec where
  marshal : List (String × String) → List Nat
  hmacSHA512 : List Nat → List Nat → List Nat

/-- The method `Token.SigningString`: the encoded header, a dot, the encoded
claims. -/
def signingString (j : JwtCodec) (token : JwtToken) : String :=
  rawURLEncodeToString (j.marshal token.header) ++ "." ++
    rawURLEncodeToString (j.marshal token.claims)

/-- The method `Token.SignedString` for the method HS512: the signing string, a
dot, and the encoded HMAC-SHA-512 of the signing string under the key. -/
def signedStringHS512 (j : JwtCodec) (token : JwtToken) (key : List Nat) : String :=
  signingString j token ++ "." ++
    rawURLEncodeToString (j.hmacSHA512 key (stringBytes (signingString j token)))

/-- The method `SigningMethodHMAC.Verify` for an encoded signature segment: the
segment decodes to the HMAC-SHA-512 of the signing string under the key. -/
def verifyHS512 (j : JwtCodec) (signing signature : String) (key : List Nat) : Bool :=
  decide (rawURLDecode signature = .ok (j.hmacSHA512 key (stringBytes signing)))

/-! ## An instance of the environment, for running the model on concrete inputs -/

/-- JSON white space: space, tab, line feed, carriage return. -/
def isJsonSpace (b : Nat) : Bool := b = 32 || b = 9 || b = 10 || b = 13

/-- Drop leading JSON white space. -/
def skipSpace : List Nat → List Nat
  | [] => []
  | b :: bs => if isJsonSpace b then skipSpace bs else b :: bs

/-- The value of a hexadecimal digit. -/
def hexValue (b : Nat) : Option Nat :=
  if 48 ≤ b ∧ b ≤ 57 then some (b - 48)
  else if 97 ≤ b ∧ b ≤ 102 then some (b - 87)
  else if 65 ≤ b ∧ b ≤ 70 then some (b - 55)
  else none

/-- The character of a two-character escape, if the escape exists. -/
def escapeChar (b : Nat) : Option Char :=
  if b = 34 then some (Char.ofNat 34)
  else if b = 92 then some (Char.ofNat 92)
  else if b = 47 then some '/'
  else if b = 98 then some (Char.ofNat 8)
  else if b = 102 then some (Char.ofNat 12)
  else if b = 110 then some '\n'
  else if b = 114 then some '\r'
  else if b = 116 then some '\t'
  else none

/-- Read a JSON string after its opening quote: the text and the bytes after
the closing quote. Only ASCII bytes are accepted here. -/
def scanString : Nat → List Nat → List Char → Option (String × List Nat)
  | 0, _, _ => none
  | _ + 1, [], _ => none
  | n + 1, b :: rest, acc =>
    if b = 34 then some (String.mk acc.reverse, rest)
    else if b = 92 then
      match rest with
      | 117 :: h1 :: h2 :: h3 :: h4 :: rest2 =>
        match hexValue h1, hexValue h2, hexValue h3, hexValue h4 with
        | some a, some b2, some c, some d =>
          scanString n rest2 (Char.ofNat (((a * 16 + b2) * 16 + c) * 16 + d) :: acc)
        | _, _, _, _ => none
      | e :: rest2 =>
        match escapeChar e with
        | some ch => scanString n rest2 (ch :: acc)
        | none => none
      | [] => none
    else if b < 32 ∨ 128 ≤ b then none
    else scanString n rest (Char.ofNat b :: acc)

/-- Split off the leading decimal digits. -/
def takeDigits : List Nat → List Nat × List Nat
  | [] => ([], [])
  | b :: bs =>
    if 48 ≤ b ∧ b ≤ 57 then (b :: (takeDigits bs).1, (takeDigits bs).2)
    else ([], b :: bs)

/-- Read a JSON number: its text and the bytes after it. -/
def scanNumber (bs : List Nat) : Option (String × List Nat) :=
  let (sign, bs1) := match bs with
    | 45 :: r => ([45], r)
    | r => ([], r)
  let (intPart, bs2) := takeDigits bs1
  if intPart = [] ∨ (intPart.length > 1 ∧ intPart.head? = some 48) then none
  else
    let fracRes : Option (List Nat × List Nat) := match bs2 with
      | 46 :: r =>
        let (ds, r2) := takeDigits r
        if ds = [] then none else some (46 :: ds, r2)
      | r => some ([], r)
    match fracRes with
    | none => none
    | some (frac, bs3) =>
      let expRes : Option (List Nat × List Nat) := match bs3 with
        | e :: r =>
          if e = 101 ∨ e = 69 then
            let (sg, r1) := match r with
              | 43 :: r0 => ([43], r0)
              | 45 :: r0 => ([45], r0)
              | r0 => ([], r0)
            let (ds, r2) := takeDigits r1
            if ds = [] then none else some (e :: sg ++ ds, r2)
          else some ([], e :: r)
        | [] => some ([], [])
      match expRes with
      | none => none
      | some (ex, bs4) =>
        some (String.mk ((sign ++ intPart ++ frac ++ ex).map Char.ofNat), bs4)

/-- Read the items of an array after the first one is known to exist. -/
def scanItems (value : List Nat → Option (Json × List Nat)) :
    Nat → List Nat → List Json → Option (List Json × List Nat)
  | 0, _, _ => none
  | n + 1, bs, acc =>
    match value bs with
    | none => none
    | some (v, rest) =>
      match skipSpace rest with
      | 44 :: rest2 => scanItems value n rest2 (v :: acc)
      | 93 :: rest2 => some ((v :: acc).reverse, rest2)
      | _ => none

/-- Read the members of an object after the first one is known to exist. -/
def scanMembers (value : List Nat → Option (Json × List Nat)) :
    Nat → List Nat → List (String × Json) → Option (List (String × Json) × List Nat)
  | 0, _, _ => none
  | n + 1, bs, acc =>
    match skipSpace bs with
    | 34 :: rest =>
      match scanString rest.length rest [] with
      | none => none
      | some (key, rest1) =>
        match skipSpace rest1 with
        | 58 :: rest2 =>
          match value rest2 with
          | none => none
          | some (v, rest3) =>
            match skipSpace rest3 with
            | 44 :: rest4 => scanMembers value n rest4 ((key, v) :: acc)
            | 125 :: rest4 => some (((key, v) :: acc).reverse, rest4)
            | _ => none
        | _ => none
    | _ => none

/-- Read one JSON value, nested at most `fuel` deep. -/
def scanValue : Nat → List Nat → Option (Json × List Nat)
  | 0, _ => none
  | fuel + 1, bs =>
    match skipSpace bs with
    | [] => none
    | b :: rest =>
      if b = 123 then
        match skipSpace rest with
        | 125 :: rest1 => some (.obj [], rest1)
        | _ => (scanMembers (scanValue fuel) rest.length rest []).map
            (fun r => (Json.obj r.1, r.2))
      else if b = 91 then
        match skipSpace rest with
        | 93 :: rest1 => some (.arr [], rest1)
        | _ => (scanItems (scanValue fuel) rest.length rest []).map
            (fun r => (Json.arr r.1, r.2))
      else if b = 34 then
        (scanString rest.length rest []).map (fun r => (Json.str r.1, r.2))
      else if startsWithChars "true".toList ((b :: rest).map Char.ofNat) then
        some (.bool true, rest.drop 3)
      else if startsWithChars "false".toList ((b :: rest).map Char.ofNat) then
        some (.bool false, rest.drop 4)
      else if startsWithChars "null".toList ((b :: rest).map Char.ofNat) then
        some (.null, rest.drop 3)
      else (scanNumber (b :: rest)).map (fun r => (Json.num r.1, r.2))

/-- A parser for JSON texts made of ASCII bytes. -/
def sampleJsonParse (bs : List Nat) : Except String Json :=
  match scanValue (bs.length + 1) bs with
  | some (v, rest) =>
    if skipSpace rest = [] then .ok v else .error "invalid character after top-level value"
  | none => .error "invalid JSON text"

/-- The raw query of a location: the text between the first question mark and
the first number sign after it. -/
def sampleUrlParse (location : String) : Except String String :=
  match splitChars '?' location.toList with
  | _ :: q :: _ => .ok (String.mk ((splitChars '#' q).headD []))
  | _ => .ok ""

/-- The first value of a key among the pairs of a raw query, without
percent-decoding. -/
def sampleQueryGet (rawQuery key : String) : String :=
  match (splitChars '&' rawQuery.toList).filterMap (fun pair =>
      match splitChars '=' pair with
      | k :: v :: _ => if String.mk k = key then some (String.mk v) else none
      | _ => none) with
  | v :: _ => v
  | [] => ""

/-- An instance of `Lib`: the ASCII JSON parser, and stand-ins for signing (the
header and claim values joined, the key left out) and for URL parsing. -/
def sampleLib : Lib :=
  { jsonParse := sampleJsonParse
    jsonTypeError := fun kind =>
      "json: cannot unmarshal " ++ kind ++ " into Go struct field .sub of type string"
    signedString := fun token _ =>
      .ok (String.intercalate "." ((token.header ++ token.claims).map Prod.snd))
    urlParse := sampleUrlParse
    queryGet := sampleQueryGet }

/-- A response with no `Location` header and an empty body. -/
def plainResponse {α : Type} (status : Int) (result : α) : Response α :=
  { status := status, location := "", body := "", result := result }

/-- A world whose clock always reads `now` and whose endpoints of the identity
service give the same answer to every request; the search endpoint is
unreachable. -/
def constWorld (now : Int) (token : HttpResult TokenResponse)
    (clientKeys : HttpResult (List ClientKey)) (authorize : HttpResult Unit)
    (users : HttpResult User) : World :=
  { clock := fun _ => now
    token := fun _ _ => token
    clientKeys := fun _ _ => clientKeys
    authorize := fun _ _ => authorize
    users := fun _ _ => users
    search := fun _ _ => .failure "connection refused" (plainResponse 0 ()) }

/-- The state before any request and any clock reading. -/
def initialSys : Sys := { trace := [], ticks := 0 }

/-- A world whose clock always reads `now` and whose endpoints are unreachable. -/
def offlineWorld (now : Int) : World :=
  constWorld now (.failure "connection refused" (plainResponse 0 ⟨"", "", 0, "", "", ""⟩))
    (.failure "connection refused" (plainResponse 0 []))
    (.failure "connection refused" (plainResponse 0 ()))
    (.failure "connection refused" (plainResponse 0
      ⟨0, "", "", "", ⟨"", "", "", none, "", "", "", "", "", ""⟩, false, [], []⟩))

/-- A client as `NewClient` leaves it: service token, signing key and key id set. -/
def sampleClient : Client :=
  { clientID := "client-id", clientSecret := "client-secret", deviceID := "device-1",
    clientToken := some ⟨"service-token", "Bearer", 3600, "", "", ""⟩,
    signingKey := some [1, 2, 3], keyID := "k1" }

/-- A token bundle with the given ID token and lifetime. -/
def sampleBundle (idToken : String) (expiresIn : Int) : TokenResponse :=
  { AccessToken := "at2", TokenType := "Bearer", ExpiresIn := expiresIn,
    RefreshToken := "rt2", IDToken := idToken, Data := "" }

/-- A profile with the given emails and account links. -/
def sampleUser (emails : List EmailEntry) (links : List AccountLink) : User :=
  { UserID := 7, Domain := "IDM", Region := "US", Status := "ACTIVE",
    Profile := ⟨"Ann Lee", "ann", "Ann", some "Lee", "", "", "", "en_US", "", "US"⟩,
    IsEmailVerified := true, Emails := emails, AccountLinks := links }

/-- A world whose clock always reads `now`, whose token endpoint answers 200
with `bundle` and whose users endpoint answers 200 with `user`. -/
def profileWorld (now : Int) (bundle : TokenResponse) (user : User) : World :=
  constWorld now (.response (plainResponse 200 bundle))
    (.failure "connection refused" (plainResponse 0 []))
    (.failure "connection refused" (plainResponse 0 ()))
    (.response (plainResponse 200 user))

/-- An ID token of three segments whose middle segment is the unpadded
base64url text of the sixteen bytes of the JSON object with the one member
sub = abc123. -/
def sampleIDToken : String := "h.eyJzdWIiOiJhYmMxMjMifQ.s"

/-- The bytes that the middle segment of `sampleIDToken` decodes to. -/
def samplePayload : List Nat :=
  [123, 34, 115, 117, 98, 34, 58, 34, 97, 98, 99, 49, 50, 51, 34, 125]

/-- An advertised key with the given use, algorithm, key text and key id. -/
def sampleKey (use alg k kid : String) : ClientKey :=
  { Kty := "oct", Use := use, Kid := kid, K := k, Alg := alg, ClientID := "client-id",
    KeyID := kid, Created := "", Updated := "" }

/-- A world whose clock always reads `now`, whose token endpoint answers 200
and whose key endpoint answers 200 with `keys`. -/
def keyWorld (now : Int) (keys : List ClientKey) : World :=
  constWorld now (.response (plainResponse 200 ⟨"service-token", "Bearer", 3600, "", "", ""⟩))
    (.response (plainResponse 200 keys))
    (.failure "connection refused" (plainResponse 0 ()))
    (.failure "connection refused" (plainResponse 0
      ⟨0, "", "", "", ⟨"", "", "", none, "", "", "", "", "", ""⟩, false, [], []⟩))

/-- A world whose clock always reads `now` and whose authorize endpoint gives
the answer `authorize`; the other endpoints are unreachable. -/
def authorizeWorld (now : Int) (authorize : HttpResult Unit) : World :=
  constWorld now (.failure "connection refused" (plainResponse 0 ⟨"", "", 0, "", "", ""⟩))
    (.failure "connection refused" (plainResponse 0 []))
    authorize
    (.failure "connection refused" (plainResponse 0
      ⟨0, "", "", "", ⟨"", "", "", none, "", "", "", "", "", ""⟩, false, [], []⟩))

/-- A world whose clock always reads `now`, whose authorize endpoint ends in the
suppressed redirect to `location`, whose token endpoint answers 200 with
`bundle` and whose users endpoint answers 200 with `user`. -/
def redirectWorld (now : Int) (location : String) (bundle : TokenResponse) (user : User) :
    World :=
  constWorld now (.response (plainResponse 200 bundle))
    (.failure "connection refused" (plainResponse 0 []))
    (.failure "Post /oauth/authorize: auto redirect is disabled"
      { status := 302, location := location, body := "", result := () })
    (.response (plainResponse 200 user))

/-- A world whose clock always reads `now` and whose search endpoint gives the
answer `answer`; the identity service is unreachable. -/
def searchWorld (now : Int) (answer : HttpResult Unit) : World :=
  { offlineWorld now with search := fun _ _ => answer }

/-- A stand-in for the decoding of a search response: an empty body is an
error, any other body holds an empty item list. -/
def sampleUnmarshalItems (body : String) : Except String (Option (List FoodSearchResult)) :=
  if body = "" then .error "unexpected end of JSON input" else .ok (some [])

/-- A session as `createSessionFromTokenResponse` returns it. -/
def sampleSession : UserSession :=
  { UserID := "abc123", Email := "ann@example.com", FirstName := "Ann", LastName := "Lee",
    DomainUserID := "d1", AccessToken := "at2", RefreshToken := "rt2",
    IDToken := sampleIDToken, Data := "", ExpiresAt := 3600000001000 }

/-- A stand-in for `json.Marshal` of a map of strings: the members in the order
given, without escaping. -/
def sampleMarshal (pairs : List (String × String)) : List Nat :=
  [123] ++ List.intercalate [44] (pairs.map (fun kv =>
    [34] ++ stringBytes kv.1 ++ [34, 58, 34] ++ stringBytes kv.2 ++ [34])) ++ [125]

/-- An instance of `JwtCodec`: `sampleMarshal`, and a stand-in for the MAC (64
copies of the byte sum of key and message). -/
def sampleCodec : JwtCodec :=
  { marshal := sampleMarshal
    hmacSHA512 := fun key message => List.replicate 64 ((key.sum + message.sum) % 256) }

/-- The instance `sampleLib` with `SignedString` built from a codec. -/
def codecLib (j : JwtCodec) : Lib :=
  { sampleLib with signedString := fun token key => .ok (signedStringHS512 j token key) }

end MFP

/-! ## Lemmas about the embedding -/

namespace MFP

/-- For a lifetime whose nanosecond count fits int64, the product does not wrap. -/
theorem durationSeconds_exact (n : Int) (hlo : -9223372036 ≤ n) (hhi : n ≤ 9223372036) :
    durationSeconds n = n * 1000000000 := by
  unfold durationSeconds wrapInt64 timeSecond
  omega

/-- The loop over the account links returns the domain user id of the first
link of domain MFP, and the initial value when there is none. -/
theorem scanAccountLinks_find (links : List AccountLink) (d0 : String) :
    scanAccountLinks links d0 =
      match links.find? (fun l => decide (l.Domain = "MFP")) with
      | some l => l.DomainUserID
      | none => d0 := by
  induction links with
  | nil => rfl
  | cons l ls ih =>
    by_cases h : l.Domain = "MFP"
    · simp [scanAccountLinks, List.find?, h]
    · simp [scanAccountLinks, List.find?, h, ih]

/-- The profile fetch sends exactly one request and maps the answer. -/
theorem getUser_eq (w : World) (c : Client) (session : UserSession) (st : Sys) :
    GetUser w c session st =
      ((match w.users st.trace (userRequest c session) with
        | .failure text _ => .returned none (some ("error making request: " ++ text))
        | .response resp =>
          if resp.status ≠ 200 then
            .returned none
              (some ("unexpected status code: " ++ toString resp.status ++ ", body: " ++ resp.body))
          else .returned (some resp.result) none),
        { st with trace := st.trace ++ [userRequest c session] }) := by
  unfold GetUser send
  cases w.users st.trace (userRequest c session) with
  | failure text r => rfl
  | response resp =>
    by_cases h : resp.status = 200 <;> simp [h]

/-- Whenever `buildSession` hands back a session, the error is nil, the domain
user id is not empty, and user id and expiry are those of the initial session. -/
theorem buildSession_returns_session (w : World) (c : Client) (userID : String)
    (tokenResp : TokenResponse) (st : Sys) (session : UserSession) (err : Option String)
    (st' : Sys)
    (h : buildSession w c userID tokenResp st = (.returned (some session) err, st')) :
    err = none ∧ session.DomainUserID ≠ "" ∧ session.UserID = userID ∧
      session.ExpiresAt = timeAdd (w.clock st.ticks) (durationSeconds tokenResp.ExpiresIn) := by
  unfold buildSession at h
  simp only [timeNow, getUser_eq] at h
  cases hu : w.users st.trace
      (userRequest c (initialSession userID tokenResp (w.clock st.ticks))) with
  | failure text r =>
    rw [hu] at h
    simp at h
  | response resp =>
    rw [hu] at h
    by_cases h200 : resp.status = 200
    · simp only [h200, ne_eq, not_true_eq_false, if_false] at h
      cases hem : resp.result.Emails with
      | nil => rw [hem] at h; simp at h
      | cons first rest =>
        rw [hem] at h
        simp only at h
        split at h
        · simp at h
        · rename_i hd
          simp only [Prod.mk.injEq, Run.returned.injEq, Option.some.injEq] at h
          obtain ⟨⟨hs, he⟩, _⟩ := h
          subst hs
          refine ⟨he.symm, hd, ?_, ?_⟩
          · cases resp.result.Profile.LastName <;> rfl
          · cases resp.result.Profile.LastName <;> rfl
    · simp [h200] at h

/-- A profile with an email and a first MFP link of non-empty domain user id
yields a session; one request joins the trace and the clock is read once. -/
theorem buildSession_success (w : World) (c : Client) (userID : String)
    (tokenResp : TokenResponse) (st : Sys) (resp : Response User) (link : AccountLink)
    (hresp : w.users st.trace
      (userRequest c (initialSession userID tokenResp (w.clock st.ticks))) = .response resp)
    (h200 : resp.status = 200) (hemail : resp.result.Emails ≠ [])
    (hlink : resp.result.AccountLinks.find? (fun l => decide (l.Domain = "MFP")) = some link)
    (hd : link.DomainUserID ≠ "") :
    ∃ session, buildSession w c userID tokenResp st =
        (.returned (some session) none,
          { trace := st.trace ++
              [userRequest c (initialSession userID tokenResp (w.clock st.ticks))],
            ticks := st.ticks + 1 }) ∧
      session.UserID = userID ∧ session.DomainUserID = link.DomainUserID ∧
      session.AccessToken = tokenResp.AccessToken ∧
      session.RefreshToken = tokenResp.RefreshToken ∧ session.IDToken = tokenResp.IDToken ∧
      session.ExpiresAt = timeAdd (w.clock st.ticks) (durationSeconds tokenResp.ExpiresIn) := by
  unfold buildSession
  simp only [timeNow, getUser_eq, hresp, h200, ne_eq, not_true_eq_false, if_false]
  cases hem : resp.result.Emails with
  | nil => exact absurd hem hemail
  | cons first rest =>
    have hscan : scanAccountLinks resp.result.AccountLinks
        (initialSession userID tokenResp (w.clock st.ticks)).DomainUserID =
        link.DomainUserID := by
      rw [scanAccountLinks_find, hlink]
    simp only [hscan]
    cases hl : resp.result.Profile.LastName <;> simp [hd, initialSession]

/-- A profile with an email and no link of domain MFP yields the unresolved
account error and a nil session. -/
theorem buildSession_no_link (w : World) (c : Client) (userID : String)
    (tokenResp : TokenResponse) (st : Sys) (resp : Response User)
    (hresp : w.users st.trace
      (userRequest c (initialSession userID tokenResp (w.clock st.ticks))) = .response resp)
    (h200 : resp.status = 200) (hemail : resp.result.Emails ≠ [])
    (hlink : resp.result.AccountLinks.find? (fun l => decide (l.Domain = "MFP")) = none) :
    (buildSession w c userID tokenResp st).1 =
      .returned none (some "no domain user ID found in account links") := by
  unfold buildSession
  simp only [timeNow, getUser_eq, hresp, h200, ne_eq, not_true_eq_false, if_false]
  cases hem : resp.result.Emails with
  | nil => exact absurd hem hemail
  | cons first rest =>
    have hscan : scanAccountLinks resp.result.AccountLinks
        (initialSession userID tokenResp (w.clock st.ticks)).DomainUserID = "" := by
      rw [scanAccountLinks_find, hlink]
      rfl
    simp only [hscan]
    cases hl : resp.result.Profile.LastName <;> simp

/-- A session handed back by `createSessionFromTokenResponse` was built by
`buildSession` from the same bundle and state. -/
theorem createSession_returns_session (lib : Lib) (w : World) (c : Client)
    (mfpUserID : String) (tokenResp : TokenResponse) (st : Sys) (session : UserSession)
    (err : Option String) (st' : Sys)
    (h : createSessionFromTokenResponse lib w c mfpUserID tokenResp st =
      (.returned (some session) err, st')) :
    ∃ userID, buildSession w c userID tokenResp st = (.returned (some session) err, st') := by
  unfold createSessionFromTokenResponse at h
  simp only at h
  split at h
  · simp at h
  · split at h
    · split at h
      · simp at h
      · split at h
        · simp at h
        · split at h
          · simp at h
          · exact ⟨_, h⟩
    · exact ⟨_, h⟩

/-- Every session handed back by `createSessionFromTokenResponse` comes with a
nil error and has a non-empty domain user id. -/
theorem createSession_session_resolved (lib : Lib) (w : World) (c : Client)
    (mfpUserID : String) (tokenResp : TokenResponse) (st : Sys) (session : UserSession)
    (err : Option String) (st' : Sys)
    (h : createSessionFromTokenResponse lib w c mfpUserID tokenResp st =
      (.returned (some session) err, st')) :
    err = none ∧ session.DomainUserID ≠ "" := by
  obtain ⟨userID, hb⟩ := createSession_returns_session lib w c mfpUserID tokenResp st _ _ _ h
  obtain ⟨h1, h2, _⟩ := buildSession_returns_session w c userID tokenResp st _ _ _ hb
  exact ⟨h1, h2⟩

/-- The key loop of `NewClient` is a first-match search followed by a decoding. -/
theorem findSigningKey_eq (keys : List ClientKey) (client : Client) :
    findSigningKey keys client =
      match keys.find? isSigningKey with
      | none => .ok client
      | some key =>
        match rawURLDecode key.K with
        | .error e => .error ("error decoding signing key: " ++ e)
        | .ok signingKey =>
          .ok { client with signingKey := some signingKey, keyID := key.Kid } := by
  induction keys with
  | nil => rfl
  | cons k ks ih =>
    cases h : isSigningKey k
    · simp [findSigningKey, List.find?, h, ih]
    · simp [findSigningKey, List.find?, h]

/-- Before any network call the new client has neither signing key nor token. -/
theorem newClientValue_fields (w : World) (clientID clientSecret : String) (st : Sys) :
    (newClientValue w clientID clientSecret st).1.signingKey = none ∧
      (newClientValue w clientID clientSecret st).1.clientToken = none := by
  simp [newClientValue, timeNow]

/-! ## The claims -/

/-- C1 (evaluation at the failing input): with the known user ID u1 and a
profile answered with status 200 that has no account link and no email,
`createSessionFromTokenResponse` panics on `Emails[0]`; it does not return the
unresolved-account error. -/
theorem createSession_no_link_no_email_panics :
    (createSessionFromTokenResponse sampleLib
        (profileWorld 1000 (sampleBundle "idt2" 3600) (sampleUser [] []))
        sampleClient "u1" (sampleBundle "idt2" 3600) initialSys).1 =
      .panicked "index out of range [0] with length 0" := by
  decide

/-- C2: with no known user ID, an ID token that does not split into exactly
three segments, or whose middle segment is not unpadded base64url, or whose
decoded payload is not valid JSON, makes `createSessionFromTokenResponse`
return a nil session and one of the three invalid-token errors; it does not
panic, and the state is unchanged, so no profile fetch is sent. -/
theorem createSession_malformed_id_token (lib : Lib) (w : World) (c : Client)
    (tokenResp : TokenResponse) (st : Sys)
    (h : (stringsSplit tokenResp.IDToken '.').length ≠ 3 ∨
      (∃ segment e, (stringsSplit tokenResp.IDToken '.')[1]? = some segment ∧
        rawURLDecode segment = .error e) ∨
      (∃ segment payload e, (stringsSplit tokenResp.IDToken '.')[1]? = some segment ∧
        rawURLDecode segment = .ok payload ∧ lib.jsonParse payload = .error e)) :
    ∃ msg, createSessionFromTokenResponse lib w c "" tokenResp st =
        (.returned none (some msg), st) ∧
      (msg = "invalid token format" ∨ (∃ e, msg = "error decoding token payload: " ++ e) ∨
        ∃ e, msg = "error parsing token claims: " ++ e) := by
  unfold createSessionFromTokenResponse
  by_cases hlen : (stringsSplit tokenResp.IDToken '.').length ≠ 3
  · exact ⟨"invalid token format", by simp [hlen], Or.inl rfl⟩
  · rcases h with h | ⟨segment, e, hseg, hdec⟩ | ⟨segment, payload, e, hseg, hdec, hjson⟩
    · exact absurd h hlen
    · exact ⟨"error decoding token payload: " ++ e, by simp [hlen, hseg, hdec],
        Or.inr (Or.inl ⟨e, rfl⟩)⟩
    · refine ⟨"error parsing token claims: " ++ e, ?_, Or.inr (Or.inr ⟨e, rfl⟩)⟩
      simp [hlen, hseg, hdec, jsonUnmarshalClaims, hjson]

/-- Witness of C2: the ID token h.bm90anNvbg.s has three segments and a middle
segment that decodes to the seven bytes of the text notjson, which is not
valid JSON. -/
theorem createSession_malformed_id_token_witness :
    ∃ msg, createSessionFromTokenResponse sampleLib (offlineWorld 1000) sampleClient ""
        (sampleBundle "h.bm90anNvbg.s" 3600) initialSys =
        (.returned none (some msg), initialSys) ∧
      (msg = "invalid token format" ∨ (∃ e, msg = "error decoding token payload: " ++ e) ∨
        ∃ e, msg = "error parsing token claims: " ++ e) :=
  createSession_malformed_id_token sampleLib (offlineWorld 1000) sampleClient
    (sampleBundle "h.bm90anNvbg.s" 3600) initialSys
    (Or.inr (Or.inr ⟨"bm90anNvbg", [110, 111, 116, 106, 115, 111, 110], "invalid JSON text",
      by decide, by decide, rfl⟩))

/-- C3: with no known user ID, an ID token of exactly three segments whose
middle segment decodes (unpadded base64url) to the JSON object with the one
member sub = s, and a profile fetch answered 200 with at least one email and
a first MFP link of non-empty domain user id, `createSessionFromTokenResponse`
returns a session with UserID = s, and the one request it sends is the profile
fetch for the path /users/s?fetch_profile=true&fetch_emails=true. -/
theorem createSession_reads_sub (s : String) (lib : Lib) (w : World) (c : Client)
    (tokenResp : TokenResponse) (st : Sys) (header segment signature : String)
    (payload : List Nat) (resp : Response User) (link : AccountLink)
    (hsplit : stringsSplit tokenResp.IDToken '.' = [header, segment, signature])
    (hdec : rawURLDecode segment = .ok payload)
    (hjson : lib.jsonParse payload = .ok (.obj [("sub", .str s)]))
    (hresp : w.users st.trace
      (userRequest c (initialSession s tokenResp (w.clock st.ticks))) = .response resp)
    (h200 : resp.status = 200) (hemail : resp.result.Emails ≠ [])
    (hlink : resp.result.AccountLinks.find? (fun l => decide (l.Domain = "MFP")) = some link)
    (hd : link.DomainUserID ≠ "") :
    ∃ session, createSessionFromTokenResponse lib w c "" tokenResp st =
        (.returned (some session) none,
          { trace := st.trace ++
              [userRequest c (initialSession s tokenResp (w.clock st.ticks))],
            ticks := st.ticks + 1 }) ∧
      session.UserID = s ∧
      (userRequest c (initialSession s tokenResp (w.clock st.ticks))).path =
        "/users/" ++ s ++ "?fetch_profile=true&fetch_emails=true" := by
  obtain ⟨session, hb, hid, _⟩ :=
    buildSession_success w c s tokenResp st resp link hresp h200 hemail hlink hd
  refine ⟨session, ?_, hid, rfl⟩
  have hsub : jsonUnmarshalClaims lib payload = .ok s := by
    simp [jsonUnmarshalClaims, hjson, storeMembers, matchesSub]
  unfold createSessionFromTokenResponse
  simp [hsplit, hdec, hsub, hb]

/-- Witness of C3: s = abc123, with the ID token `sampleIDToken`. -/
theorem createSession_reads_sub_witness :
    ∃ session, createSessionFromTokenResponse sampleLib
        (profileWorld 1000 (sampleBundle sampleIDToken 3600)
          (sampleUser [⟨"ann@example.com", true, true⟩] [⟨7, "MFP", "d1"⟩]))
        sampleClient "" (sampleBundle sampleIDToken 3600) initialSys =
        (.returned (some session) none,
          { trace := initialSys.trace ++
              [userRequest sampleClient
                (initialSession "abc123" (sampleBundle sampleIDToken 3600) 1000)],
            ticks := initialSys.ticks + 1 }) ∧
      session.UserID = "abc123" ∧
      (userRequest sampleClient
        (initialSession "abc123" (sampleBundle sampleIDToken 3600) 1000)).path =
        "/users/" ++ "abc123" ++ "?fetch_profile=true&fetch_emails=true" :=
  createSession_reads_sub "abc123" sampleLib
    (profileWorld 1000 (sampleBundle sampleIDToken 3600)
      (sampleUser [⟨"ann@example.com", true, true⟩] [⟨7, "MFP", "d1"⟩]))
    sampleClient (sampleBundle sampleIDToken 3600) initialSys
    "h" "eyJzdWIiOiJhYmMxMjMifQ" "s" samplePayload
    (plainResponse 200 (sampleUser [⟨"ann@example.com", true, true⟩] [⟨7, "MFP", "d1"⟩]))
    ⟨7, "MFP", "d1"⟩ (by decide) (by decide) rfl rfl rfl (by decide) (by decide) (by decide)

/-- C4 (counterexample): the refresh of user u1 with token rt-xyz, answered
with a bundle whose expires_in is 9223372037 and a profile with an email and
the MFP link d1, returns a session whose ExpiresAt is not the build time
(1000) plus 9223372037 seconds: the nanosecond product wraps around. -/
theorem refresh_known_user_overflow :
    ∃ session, (RefreshUserToken sampleLib
        (profileWorld 1000 (sampleBundle "idt2" 9223372037)
          (sampleUser [⟨"ann@example.com", true, true⟩] [⟨7, "MFP", "d1"⟩]))
        sampleClient "u1" "rt-xyz" initialSys).1 = .returned (some session) none ∧
      session.ExpiresAt = 1000 - 9223372036709551616 ∧
      session.ExpiresAt ≠ 1000 + 9223372037 * 1000000000 :=
  ⟨_, rfl, by decide, by decide⟩

/-- C4 (amended): for a non-empty known user ID u and a non-empty refresh
token, if the refresh-grant request is answered 200 with a bundle whose
expires_in lies between -9223372036 and 9223372036, and the profile fetched
for u is answered 200 with at least one email and a first MFP link of
non-empty domain user id d, then `RefreshUserToken` returns a session with
UserID = u, DomainUserID = d, the three tokens of the bundle, and ExpiresAt =
build time + expires_in seconds, whatever the ID token looks like; the two
requests sent are the refresh grant and the profile fetch. -/
theorem refresh_known_user (lib : Lib) (w : World) (c : Client) (u refreshToken : String)
    (st : Sys) (tresp : Response TokenResponse) (uresp : Response User) (link : AccountLink)
    (hu : u ≠ "") (hr : refreshToken ≠ "")
    (htoken : w.token st.trace (refreshRequest c refreshToken) = .response tresp)
    (ht200 : tresp.status = 200)
    (hlo : -9223372036 ≤ tresp.result.ExpiresIn) (hhi : tresp.result.ExpiresIn ≤ 9223372036)
    (huser : w.users (st.trace ++ [refreshRequest c refreshToken])
      (userRequest c (initialSession u tresp.result (w.clock st.ticks))) = .response uresp)
    (hu200 : uresp.status = 200) (hemail : uresp.result.Emails ≠ [])
    (hlink : uresp.result.AccountLinks.find? (fun l => decide (l.Domain = "MFP")) = some link)
    (hd : link.DomainUserID ≠ "") :
    ∃ session, RefreshUserToken lib w c u refreshToken st =
        (.returned (some session) none,
          { trace := st.trace ++ [refreshRequest c refreshToken,
              userRequest c (initialSession u tresp.result (w.clock st.ticks))],
            ticks := st.ticks + 1 }) ∧
      session.UserID = u ∧ session.DomainUserID = link.DomainUserID ∧
      session.AccessToken = tresp.result.AccessToken ∧
      session.RefreshToken = tresp.result.RefreshToken ∧
      session.IDToken = tresp.result.IDToken ∧
      session.ExpiresAt = w.clock st.ticks + tresp.result.ExpiresIn * 1000000000 := by
  obtain ⟨session, hb, h1, h2, h3, h4, h5, h6⟩ :=
    buildSession_success w c u tresp.result
      { st with trace := st.trace ++ [refreshRequest c refreshToken] } uresp link
      huser hu200 hemail hlink hd
  refine ⟨session, ?_, h1, h2, h3, h4, h5, ?_⟩
  · unfold RefreshUserToken createSessionFromTokenResponse
    simp [hr, send, htoken, ht200, hu, hb]
  · rw [h6, durationSeconds_exact _ hlo hhi]
    rfl

/-- Witness of C4: u = u1, refresh token rt-xyz, bundle (at2, rt2, idt2, 3600),
d = d1, build time 1000. -/
theorem refresh_known_user_witness :
    ∃ session, RefreshUserToken sampleLib
        (profileWorld 1000 (sampleBundle "idt2" 3600)
          (sampleUser [⟨"ann@example.com", true, true⟩] [⟨7, "MFP", "d1"⟩]))
        sampleClient "u1" "rt-xyz" initialSys =
        (.returned (some session) none,
          { trace := initialSys.trace ++ [refreshRequest sampleClient "rt-xyz",
              userRequest sampleClient (initialSession "u1" (sampleBundle "idt2" 3600) 1000)],
            ticks := initialSys.ticks + 1 }) ∧
      session.UserID = "u1" ∧ session.DomainUserID = "d1" ∧
      session.AccessToken = "at2" ∧ session.RefreshToken = "rt2" ∧
      session.IDToken = "idt2" ∧
      session.ExpiresAt = 1000 + 3600 * 1000000000 :=
  refresh_known_user sampleLib
    (profileWorld 1000 (sampleBundle "idt2" 3600)
      (sampleUser [⟨"ann@example.com", true, true⟩] [⟨7, "MFP", "d1"⟩]))
    sampleClient "u1" "rt-xyz" initialSys (plainResponse 200 (sampleBundle "idt2" 3600))
    (plainResponse 200 (sampleUser [⟨"ann@example.com", true, true⟩] [⟨7, "MFP", "d1"⟩]))
    ⟨7, "MFP", "d1"⟩ (by decide) (by decide) rfl rfl (by decide) (by decide) rfl rfl
    (by decide) (by decide) (by decide)

/-- C5: with an empty refresh token `RefreshUserToken` returns a nil session and
the error no refresh token provided, for every client, user ID, library and
world; the state is returned unchanged, so no request is sent, and from an
empty trace the trace stays empty. -/
theorem refresh_empty_token (lib : Lib) (w : World) (c : Client) (mfpUserID : String)
    (st : Sys) :
    RefreshUserToken lib w c mfpUserID "" st =
        (.returned none (some "no refresh token provided"), st) ∧
      (RefreshUserToken lib w c mfpUserID "" { trace := [], ticks := st.ticks }).2.trace = [] := by
  simp [RefreshUserToken]

/-- C6 (evaluation at the failing input): with no known user ID, the ID token
`sampleIDToken` and a profile answered with status 200 that has the MFP link d1
and no email, `createSessionFromTokenResponse` panics on `Emails[0]`: it returns
neither a session nor an error. -/
theorem createSession_no_email_returns_nothing :
    (createSessionFromTokenResponse sampleLib
        (profileWorld 1000 (sampleBundle sampleIDToken 3600)
          (sampleUser [] [⟨7, "MFP", "d1"⟩]))
        sampleClient "" (sampleBundle sampleIDToken 3600) initialSys).1 =
      .panicked "index out of range [0] with length 0" := by
  decide

/-- C7 (counterexample): a token of lifetime 9223372037 seconds issued at the
instant 0 is reported expired at the instant 0, although 0 is not later than
its expiry less 30 seconds: the nanosecond product wraps around. -/
theorem isTokenExpired_overflow :
    (IsTokenExpired (offlineWorld 0) 9223372037 0 initialSys).1 = true ∧
      ¬ ((offlineWorld 0).clock initialSys.ticks >
        0 + 9223372037 * 1000000000 - 30 * 1000000000) := by
  decide

/-- C7 (amended): for a lifetime between -9223372036 and 9223372036 seconds,
`IsTokenExpired` is true exactly when the clock reading is later than issue
time + lifetime - 30 s; at exactly 30 s before expiry it is false. For the
lifetime 3600 s it is false for a token issued now, true for one issued
3600 s - 20 s ago and false for one issued 3600 s - 40 s ago. -/
theorem isTokenExpired_iff (w : World) (expiresIn createdAt : Int) (st : Sys)
    (hlo : -9223372036 ≤ expiresIn) (hhi : expiresIn ≤ 9223372036) :
    ((IsTokenExpired w expiresIn createdAt st).1 = true ↔
      w.clock st.ticks > createdAt + expiresIn * 1000000000 - 30 * 1000000000) ∧
    (w.clock st.ticks = createdAt + expiresIn * 1000000000 - 30 * 1000000000 →
      (IsTokenExpired w expiresIn createdAt st).1 = false) ∧
    (IsTokenExpired w 3600 (w.clock st.ticks) st).1 = false ∧
    (IsTokenExpired w 3600
      (w.clock st.ticks - 3600 * 1000000000 + 20 * 1000000000) st).1 = true ∧
    (IsTokenExpired w 3600
      (w.clock st.ticks - 3600 * 1000000000 + 40 * 1000000000) st).1 = false := by
  have key : ∀ e t : Int, -9223372036 ≤ e → e ≤ 9223372036 →
      ((IsTokenExpired w e t st).1 = true ↔
        w.clock st.ticks > t + e * 1000000000 - 30 * 1000000000) := by
    intro e t h1 h2
    unfold IsTokenExpired timeNow timeUntil timeAdd satInt64 maxInt64 minInt64
    rw [durationSeconds_exact e h1 h2]
    simp only [timeSecond, decide_eq_true_eq]
    split_ifs <;> omega
  refine ⟨key _ _ hlo hhi, ?_, ?_, ?_, ?_⟩
  · intro hnow
    have h := key expiresIn createdAt hlo hhi
    cases hb : (IsTokenExpired w expiresIn createdAt st).1
    · rfl
    · have := h.mp hb
      omega
  · have h := key 3600 (w.clock st.ticks) (by norm_num) (by norm_num)
    cases hb : (IsTokenExpired w 3600 (w.clock st.ticks) st).1
    · rfl
    · have := h.mp hb
      omega
  · exact (key 3600 _ (by norm_num) (by norm_num)).mpr (by omega)
  · have h := key 3600 (w.clock st.ticks - 3600 * 1000000000 + 40 * 1000000000)
      (by norm_num) (by norm_num)
    cases hb : (IsTokenExpired w 3600
      (w.clock st.ticks - 3600 * 1000000000 + 40 * 1000000000) st).1
    · rfl
    · have := h.mp hb
      omega

/-- Witness of C7: lifetime 3600 s, issued at the instant 0, read at 5000. -/
theorem isTokenExpired_iff_witness :
    ((IsTokenExpired (offlineWorld 5000) 3600 0 initialSys).1 = true ↔
      (offlineWorld 5000).clock initialSys.ticks >
        0 + 3600 * 1000000000 - 30 * 1000000000) ∧
    ((offlineWorld 5000).clock initialSys.ticks =
        0 + 3600 * 1000000000 - 30 * 1000000000 →
      (IsTokenExpired (offlineWorld 5000) 3600 0 initialSys).1 = false) ∧
    (IsTokenExpired (offlineWorld 5000) 3600
      ((offlineWorld 5000).clock initialSys.ticks) initialSys).1 = false ∧
    (IsTokenExpired (offlineWorld 5000) 3600
      ((offlineWorld 5000).clock initialSys.ticks - 3600 * 1000000000 + 20 * 1000000000)
      initialSys).1 = true ∧
    (IsTokenExpired (offlineWorld 5000) 3600
      ((offlineWorld 5000).clock initialSys.ticks - 3600 * 1000000000 + 40 * 1000000000)
      initialSys).1 = false :=
  isTokenExpired_iff (offlineWorld 5000) 3600 0 initialSys (by decide) (by decide)

/-- C8 (counterexample): for the bundle with expires_in = 18446744074, built
at the instant 1000 for the known user u1, the session has ExpiresAt =
1000 + 290448384 ns, which is not 1000 + 18446744074 seconds: the int64
nanosecond product wraps around. -/
theorem createSession_expiresAt_overflow :
    ∃ session, (createSessionFromTokenResponse sampleLib
        (profileWorld 1000 (sampleBundle "idt2" 18446744074)
          (sampleUser [⟨"ann@example.com", true, true⟩] [⟨7, "MFP", "d1"⟩]))
        sampleClient "u1" (sampleBundle "idt2" 18446744074) initialSys).1 =
        .returned (some session) none ∧
      session.ExpiresAt = 1000 + 290448384 ∧
      session.ExpiresAt ≠ 1000 + 18446744074 * 1000000000 :=
  ⟨_, rfl, by decide, by decide⟩

/-- C8 (amended): for a bundle whose expires_in lies between -9223372036 and
9223372036 (the values whose nanosecond count fits int64), every session
that `createSessionFromTokenResponse` returns has ExpiresAt = build time +
expires_in seconds, the build time being the clock reading of the call. -/
theorem createSession_expiresAt (lib : Lib) (w : World) (c : Client) (mfpUserID : String)
    (tokenResp : TokenResponse) (st : Sys) (session : UserSession) (st' : Sys)
    (hlo : -9223372036 ≤ tokenResp.ExpiresIn) (hhi : tokenResp.ExpiresIn ≤ 9223372036)
    (h : createSessionFromTokenResponse lib w c mfpUserID tokenResp st =
      (.returned (some session) none, st')) :
    session.ExpiresAt = w.clock st.ticks + tokenResp.ExpiresIn * 1000000000 := by
  obtain ⟨userID, hb⟩ := createSession_returns_session lib w c mfpUserID tokenResp st _ _ _ h
  obtain ⟨_, _, _, hexp⟩ := buildSession_returns_session w c userID tokenResp st _ _ _ hb
  rw [hexp, durationSeconds_exact _ hlo hhi]
  rfl

/-- Witness of C8: the bundle with expires_in = 9223372036, the largest
lifetime that does not wrap, built at the instant 1000 for the known user u1. -/
theorem createSession_expiresAt_witness :
    (⟨"u1", "ann@example.com", "Ann", "Lee", "d1", "at2", "rt2", "idt2", "",
        9223372036000001000⟩ : UserSession).ExpiresAt =
      (profileWorld 1000 (sampleBundle "idt2" 9223372036)
        (sampleUser [⟨"ann@example.com", true, true⟩] [⟨7, "MFP", "d1"⟩])).clock
          initialSys.ticks + (sampleBundle "idt2" 9223372036).ExpiresIn * 1000000000 :=
  createSession_expiresAt sampleLib
    (profileWorld 1000 (sampleBundle "idt2" 9223372036)
      (sampleUser [⟨"ann@example.com", true, true⟩] [⟨7, "MFP", "d1"⟩]))
    sampleClient "u1" (sampleBundle "idt2" 9223372036) initialSys
    ⟨"u1", "ann@example.com", "Ann", "Lee", "d1", "at2", "rt2", "idt2", "",
      9223372036000001000⟩
    { trace := [userRequest sampleClient
        (initialSession "u1" (sampleBundle "idt2" 9223372036) 1000)], ticks := 1 }
    (by decide) (by decide) (by decide)

/-- C9 (counterexample): the token and the key list are fetched, the one
advertised key has use sig and algorithm HS512, and its k field !! is not
base64url: `NewClient` returns no client, so no signing key is the decoding
of that field, and the error is not the no-signing-key error either. -/
theorem newClient_undecodable_key :
    ([sampleKey "sig" "HS512" "!!" "k1"].find? isSigningKey).isSome = true ∧
      (NewClient (keyWorld 1000 [sampleKey "sig" "HS512" "!!" "k1"])
        "client-id" "client-secret" initialSys).1 =
        .returned none
          (some "error decoding signing key: illegal base64 data at input byte 0") := by
  decide

/-- C9 (amended): given that the client-credentials token and the key list
were fetched, key resolution in `NewClient` is a first-match search over the
advertised list for use = sig and alg = HS512. If the k field of the first
match decodes as unpadded base64url, the client is returned with signingKey
the decoded bytes and keyID the kid of that candidate, whatever the other
candidates are; if that k field does not decode, construction fails with the
error decoding signing key and no client; if no candidate matches,
construction fails with no signing key found and no client. -/
theorem newClient_key_resolution (w : World) (clientID clientSecret : String) (st : Sys)
    (tok : TokenResponse) (keys : List ClientKey) (c0 : Client) (s0 s1 s2 : Sys)
    (hvalue : newClientValue w clientID clientSecret st = (c0, s0))
    (htok : GetClientCredentialsToken w c0 s0 = (.returned (some tok) none, s1))
    (hkeys : GetClientKeys w { c0 with clientToken := some tok } s1 =
      (.returned (some keys) none, s2)) :
    (∀ key bytes, keys.find? isSigningKey = some key →
      rawURLDecode key.K = .ok bytes →
      NewClient w clientID clientSecret st =
        (.returned (some { c0 with clientToken := some tok, signingKey := some bytes,
                                   keyID := key.Kid }) none, s2)) ∧
    (∀ key e, keys.find? isSigningKey = some key →
      rawURLDecode key.K = .error e →
      NewClient w clientID clientSecret st =
        (.returned none (some ("error decoding signing key: " ++ e)), s2)) ∧
    (keys.find? isSigningKey = none →
      NewClient w clientID clientSecret st =
        (.returned none (some "no signing key found"), s2)) := by
  have hnone : c0.signingKey = none := by
    have := (newClientValue_fields w clientID clientSecret st).1
    rw [hvalue] at this
    exact this
  refine ⟨?_, ?_, ?_⟩
  · intro key bytes hfind hdec
    unfold NewClient
    simp only [hvalue, htok, hkeys]
    simp [findSigningKey_eq, hfind, hdec]
  · intro key e hfind hdec
    unfold NewClient
    simp only [hvalue, htok, hkeys]
    simp [findSigningKey_eq, hfind, hdec]
  · intro hfind
    unfold NewClient
    simp only [hvalue, htok, hkeys]
    simp [findSigningKey_eq, hfind, hnone]

/-- Witness of C9: of the three advertised keys the first is an encryption
key and the next two are HS512 signing keys; the client gets the bytes 1, 2, 3
of the first signing key (k = AQID) and its key id k1. -/
theorem newClient_key_resolution_witness :
    ∃ client, (NewClient
        (keyWorld 1000 [sampleKey "enc" "A256GCM" "BAUG" "k0", sampleKey "sig" "HS512" "AQID" "k1",
          sampleKey "sig" "HS512" "BwgJ" "k2"])
        "client-id" "client-secret" initialSys).1 = .returned (some client) none ∧
      client.signingKey = some [1, 2, 3] ∧ client.keyID = "k1" :=
  ⟨_, congrArg Prod.fst
    ((newClient_key_resolution
      (keyWorld 1000 [sampleKey "enc" "A256GCM" "BAUG" "k0", sampleKey "sig" "HS512" "AQID" "k1",
        sampleKey "sig" "HS512" "BwgJ" "k2"])
      "client-id" "client-secret" initialSys ⟨"service-token", "Bearer", 3600, "", "", ""⟩
      [sampleKey "enc" "A256GCM" "BAUG" "k0", sampleKey "sig" "HS512" "AQID" "k1",
        sampleKey "sig" "HS512" "BwgJ" "k2"] _ _ _ _ rfl rfl rfl).1
      (sampleKey "sig" "HS512" "AQID" "k1") [1, 2, 3] (by decide) (by decide)), rfl, rfl⟩

/-- C10: once `Login` has signed the credentials and posts to /oauth/authorize,
(1) a response delivered without a transport error is a failure for every
status code, 200 included: nil session and the error unexpected response
status; (2) a transport error whose text does not contain auto redirect is
disabled is a failure: nil session and the error making request; in both
cases the authorize request is the only request added to the trace, so
neither the token endpoint nor the profile endpoint is called; (3) whenever
`Login` returns a session, the POST ended in the redirect-suppressed error. -/
theorem login_authorize_outcomes (lib : Lib) (w : World) (c : Client)
    (username password : String) (st : Sys) (credentials : String)
    (clientToken : TokenResponse)
    (hsign : lib.signedString (loginToken c username password) (c.signingKey.getD []) =
      .ok credentials)
    (htoken : c.clientToken = some clientToken) :
    (∀ resp, w.authorize st.trace
        (authorizeRequest c clientToken credentials (w.clock st.ticks)) = .response resp →
      Login lib w c username password st =
        (.returned none (some ("unexpected response status: " ++ toString resp.status)),
          { trace := st.trace ++
              [authorizeRequest c clientToken credentials (w.clock st.ticks)],
            ticks := st.ticks + 1 })) ∧
    (∀ text resp, w.authorize st.trace
        (authorizeRequest c clientToken credentials (w.clock st.ticks)) = .failure text resp →
      stringsContains text "auto redirect is disabled" = false →
      Login lib w c username password st =
        (.returned none (some ("error making request: " ++ text)),
          { trace := st.trace ++
              [authorizeRequest c clientToken credentials (w.clock st.ticks)],
            ticks := st.ticks + 1 })) ∧
    (∀ session err st', Login lib w c username password st =
        (.returned (some session) err, st') →
      ∃ text resp, w.authorize st.trace
          (authorizeRequest c clientToken credentials (w.clock st.ticks)) =
            .failure text resp ∧
        stringsContains text "auto redirect is disabled" = true) := by
  refine ⟨?_, ?_, ?_⟩
  · intro resp hresp
    unfold Login
    simp [hsign, htoken, timeNow, send, hresp]
  · intro text resp hresp hno
    unfold Login
    simp [hsign, htoken, timeNow, send, hresp, hno]
  · intro session err st' hlogin
    cases hresp : w.authorize st.trace
        (authorizeRequest c clientToken credentials (w.clock st.ticks)) with
    | response resp =>
      unfold Login at hlogin
      simp [hsign, htoken, timeNow, send, hresp] at hlogin
    | failure text resp =>
      refine ⟨text, resp, rfl, ?_⟩
      by_contra hno
      have hno' : stringsContains text "auto redirect is disabled" = false := by
        simpa using hno
      unfold Login at hlogin
      simp [hsign, htoken, timeNow, send, hresp, hno'] at hlogin

/-- Witness of C10: the authorize endpoint answers the POST with status 200
and no redirect; `Login` fails with unexpected response status: 200. -/
theorem login_authorize_outcomes_witness :
    (Login sampleLib (authorizeWorld 1000 (.response (plainResponse 200 ())))
        sampleClient "ann" "pw" initialSys).1 =
      .returned none (some "unexpected response status: 200") :=
  congrArg Prod.fst
    ((login_authorize_outcomes sampleLib (authorizeWorld 1000 (.response (plainResponse 200 ())))
      sampleClient "ann" "pw" initialSys _ _ rfl rfl).1 (plainResponse 200 ()) rfl)

end MFP

/-! ## Lemmas for the redirect, the credentials and the search -/

namespace MFP

/-- Each character of the URL-safe alphabet decodes to its own 6-bit value. -/
theorem urlSextet_urlChar : ∀ n, n < 64 → urlSextet (urlChar n) = some n := by
  decide

/-- The decoding loop undoes the encoding loop on bytes. -/
theorem rawURLDecodeLoop_encode : ∀ (bs : List Nat), (∀ b ∈ bs, b < 256) →
    ∀ (pos : Nat) (out : List Nat),
      rawURLDecodeLoop (rawURLEncodeBytes bs) pos [] out = .ok (out.reverse ++ bs)
  | [], _, pos, out => by simp [rawURLEncodeBytes, rawURLDecodeLoop]
  | [a], h, pos, out => by
    have ha : a < 256 := h a (by simp)
    have h1 := urlSextet_urlChar (a / 4) (by omega)
    have h2 := urlSextet_urlChar ((a % 4) * 16) (by omega)
    simp only [rawURLEncodeBytes, rawURLDecodeLoop, h1, h2, List.reverse_cons, Except.ok.injEq]
    simp only [List.append_cancel_left_eq, List.cons.injEq, and_true]
    omega
  | [a, b], h, pos, out => by
    have ha : a < 256 := h a (by simp)
    have hb : b < 256 := h b (by simp)
    have h1 := urlSextet_urlChar (a / 4) (by omega)
    have h2 := urlSextet_urlChar ((a % 4) * 16 + b / 16) (by omega)
    have h3 := urlSextet_urlChar ((b % 16) * 4) (by omega)
    simp only [rawURLEncodeBytes, rawURLDecodeLoop, h1, h2, h3, List.reverse_cons,
      Except.ok.injEq, List.append_assoc, List.singleton_append]
    simp only [List.append_cancel_left_eq, List.cons.injEq, and_true]
    constructor <;> omega
  | a :: b :: c :: rest, h, pos, out => by
    have ha : a < 256 := h a (by simp)
    have hb : b < 256 := h b (by simp)
    have hc : c < 256 := h c (by simp)
    have h1 := urlSextet_urlChar (a / 4) (by omega)
    have h2 := urlSextet_urlChar ((a % 4) * 16 + b / 16) (by omega)
    have h3 := urlSextet_urlChar ((b % 16) * 4 + c / 64) (by omega)
    have h4 := urlSextet_urlChar (c % 64) (by omega)
    have ih := rawURLDecodeLoop_encode rest (fun x hx => h x (by simp [hx]))
    simp only [rawURLEncodeBytes, rawURLDecodeLoop, h1, h2, h3, h4, ih, List.reverse_cons,
      Except.ok.injEq, List.append_assoc, List.singleton_append]
    simp only [List.append_cancel_left_eq, List.cons_append, List.nil_append, List.cons.injEq,
      and_true]
    refine ⟨?_, ?_, ?_⟩ <;> omega

/-- Decoding the unpadded base64url text of a byte list gives the list back. -/
theorem rawURLDecode_encode (bytes : List Nat) (h : ∀ b ∈ bytes, b < 256) :
    rawURLDecode (rawURLEncodeToString bytes) = .ok bytes := by
  unfold rawURLDecode rawURLEncodeToString
  simpa using rawURLDecodeLoop_encode bytes h 0 []

/-- The form of the code exchange request, in encoded key order. -/
theorem exchangeRequest_form (c : Client) (code : String) :
    (exchangeRequest c code).form =
      [("client_id", c.clientID), ("client_secret", c.clientSecret), ("code", code),
        ("grant_type", "authorization_code"), ("redirect_uri", "mfp://identity/callback")] := by
  simp +decide [exchangeRequest, valuesSet, valuesEncode, insertByKey]

/-- The form of the authorize request, in encoded key order. -/
theorem authorizeRequest_form (c : Client) (clientToken : TokenResponse)
    (credentials : String) (now : Int) :
    (authorizeRequest c clientToken credentials now).form =
      [("client_id", c.clientID), ("credentials", credentials),
        ("nonce", toString (unixNano now)), ("redirect_uri", "mfp://identity/callback"),
        ("response_type", "code"), ("scope", "openid")] := by
  simp +decide [authorizeRequest, valuesSet, valuesEncode, insertByKey]

/-- The query of the search request when no country code is given: of the six
values set for fields[] only the last is left. -/
theorem searchRequest_query (c : Client) (session : Option UserSession) (query scope : String)
    (maxItems : Int) (flowID : String) :
    (searchRequest c session query scope maxItems none flowID).query =
      [("fields[]", "description"), ("max_items", toString maxItems), ("q", query),
        ("resource_type[]", "foods"), ("scope", scope)] := by
  simp +decide [searchRequest, valuesSet, valuesEncode, insertByKey]

/-- The query of the search request when a country code is given. -/
theorem searchRequest_query_country (c : Client) (session : Option UserSession)
    (query scope : String) (maxItems : Int) (code flowID : String) :
    (searchRequest c session query scope maxItems (some code) flowID).query =
      [("country_code", code), ("fields[]", "description"), ("max_items", toString maxItems),
        ("q", query), ("resource_type[]", "foods"), ("scope", scope)] := by
  simp +decide [searchRequest, valuesSet, valuesEncode, insertByKey]

/-- The code exchange sends exactly one request and maps the answer. -/
theorem exchangeCodeForToken_eq (w : World) (c : Client) (code : String) (st : Sys) :
    ExchangeCodeForToken w c code st =
      ((match w.token st.trace (exchangeRequest c code) with
        | .failure text _ => .returned none (some ("error making request: " ++ text))
        | .response resp =>
          if resp.status ≠ 200 then
            .returned none (some ("unexpected status code: " ++ toString resp.status))
          else .returned (some resp.result) none),
        { st with trace := st.trace ++ [exchangeRequest c code] }) := by
  have hreq : ∀ x, x = exchangeRequest c code → ExchangeCodeForToken w c code st =
      ((match w.token st.trace x with
        | .failure text _ => .returned none (some ("error making request: " ++ text))
        | .response resp =>
          if resp.status ≠ 200 then
            .returned none (some ("unexpected status code: " ++ toString resp.status))
          else .returned (some resp.result) none),
        { st with trace := st.trace ++ [x] }) := by
    intro x hx
    subst hx
    unfold ExchangeCodeForToken exchangeRequest send
    simp only
    cases w.token st.trace _ with
    | failure text r => rfl
    | response resp => by_cases h : resp.status = 200 <;> simp [h]
  exact hreq _ rfl

/-- The state after `buildSession`: one profile request more, one clock reading more. -/
theorem buildSession_sys (w : World) (c : Client) (userID : String)
    (tokenResp : TokenResponse) (st : Sys) :
    (buildSession w c userID tokenResp st).2 =
      { trace := st.trace ++
          [userRequest c (initialSession userID tokenResp (w.clock st.ticks))],
        ticks := st.ticks + 1 } := by
  unfold buildSession
  simp only [timeNow, getUser_eq]
  cases w.users st.trace
      (userRequest c (initialSession userID tokenResp (w.clock st.ticks))) with
  | failure text r => rfl
  | response resp =>
    by_cases h200 : resp.status = 200
    · simp only [h200, ne_eq, not_true_eq_false, if_false]
      cases resp.result.Emails with
      | nil => rfl
      | cons first rest =>
        simp only
        split <;> rfl
    · simp [h200]

/-- The trace after `createSessionFromTokenResponse` extends the trace before. -/
theorem createSession_trace (lib : Lib) (w : World) (c : Client) (mfpUserID : String)
    (tokenResp : TokenResponse) (st : Sys) :
    ∃ rest, (createSessionFromTokenResponse lib w c mfpUserID tokenResp st).2.trace =
      st.trace ++ rest := by
  unfold createSessionFromTokenResponse
  simp only
  split
  · exact ⟨[], by simp⟩
  · split
    · split
      · exact ⟨[], by simp⟩
      · split
        · exact ⟨[], by simp⟩
        · split
          · exact ⟨[], by simp⟩
          · exact ⟨_, by rw [buildSession_sys]⟩
    · exact ⟨_, by rw [buildSession_sys]⟩

/-- Once the credentials are signed and the client holds a service token, the
first request that `Login` sends is the authorize request carrying them. -/
theorem login_trace_head (lib : Lib) (w : World) (c : Client) (username password : String)
    (st : Sys) (credentials : String) (clientToken : TokenResponse)
    (hsign : lib.signedString (loginToken c username password) (c.signingKey.getD []) =
      .ok credentials)
    (htoken : c.clientToken = some clientToken) :
    ∃ rest, (Login lib w c username password st).2.trace =
      st.trace ++ authorizeRequest c clientToken credentials (w.clock st.ticks) :: rest := by
  unfold Login
  simp only [hsign, htoken, timeNow, send]
  cases w.authorize st.trace (authorizeRequest c clientToken credentials (w.clock st.ticks)) with
  | response resp => exact ⟨[], rfl⟩
  | failure text resp =>
    simp only
    by_cases hred : stringsContains text "auto redirect is disabled" = true
    · simp only [hred, if_true]
      by_cases hloc : resp.location = ""
      · exact ⟨[], by simp [hloc]⟩
      · simp only [hloc, if_false]
        cases lib.urlParse resp.location with
        | error e => exact ⟨[], rfl⟩
        | ok rawQuery =>
          simp only
          by_cases hcode : lib.queryGet rawQuery "code" = ""
          · exact ⟨[], by simp [hcode]⟩
          · simp only [hcode, if_false, exchangeCodeForToken_eq]
            cases w.token
                (st.trace ++ [authorizeRequest c clientToken credentials (w.clock st.ticks)])
                (exchangeRequest c (lib.queryGet rawQuery "code")) with
            | failure t r =>
              exact ⟨[exchangeRequest c (lib.queryGet rawQuery "code")], by simp⟩
            | response tresp =>
              by_cases h200 : tresp.status = 200
              · simp only [h200, ne_eq, not_true_eq_false, if_false]
                obtain ⟨rest, hrest⟩ := createSession_trace lib w c "" tresp.result
                  { trace := st.trace ++
                      [authorizeRequest c clientToken credentials (w.clock st.ticks)] ++
                      [exchangeRequest c (lib.queryGet rawQuery "code")],
                    ticks := st.ticks + 1 }
                exact ⟨exchangeRequest c (lib.queryGet rawQuery "code") :: rest,
                  by rw [hrest]; simp⟩
              · exact ⟨[exchangeRequest c (lib.queryGet rawQuery "code")], by simp [h200]⟩
    · exact ⟨[], by simp [hred]⟩

/-- The header of the token that `Login` signs. -/
theorem loginToken_header (c : Client) (username password : String) :
    (loginToken c username password).header =
      [("typ", "JWT"), ("alg", "HS512"), ("kid", c.keyID)] := by
  simp +decide [loginToken, jwtNewWithClaims, setHeader]

/-- The flow id reads the clock five times and sends nothing. -/
theorem searchFlowID_sys (w : World) (st : Sys) :
    (searchFlowID w st).2 = { trace := st.trace, ticks := st.ticks + 5 } := by
  simp [searchFlowID, timeNow]

/-- With a non-nil scope `SearchFood` sends exactly one request, with scope
all, and maps the answer; the value the caller put in the scope is not read. -/
theorem searchFood_eq (unmarshalItems : String → Except String (Option (List FoodSearchResult)))
    (w : World) (c : Client) (session : Option UserSession) (params : SearchFoodRequest)
    (s : String) (st : Sys) (hscope : params.Scope = some s) :
    SearchFood unmarshalItems w c session params st =
      ((match w.search st.trace
          (searchRequest c session params.Query "all" (params.MaxItems.getD 25)
            params.CountryCode (searchFlowID w st).1) with
        | .failure text _ => .returned none (some ("failed to make search request: " ++ text))
        | .response resp =>
          if resp.status ≠ 200 then
            .returned none
              (some ("search request failed with status " ++ toString resp.status ++ ": " ++
                resp.body))
          else
            match unmarshalItems resp.body with
            | .error e => .returned none (some ("failed to parse search response: " ++ e))
            | .ok items => .returned items none),
        { trace := st.trace ++
            [searchRequest c session params.Query "all" (params.MaxItems.getD 25)
              params.CountryCode (searchFlowID w st).1],
          ticks := st.ticks + 5 }) := by
  have hmax : (match params.MaxItems with | none => (25 : Int) | some n => n) =
      params.MaxItems.getD 25 := by
    cases params.MaxItems <;> rfl
  unfold SearchFood
  simp only [hscope, hmax, send, searchFlowID_sys]
  simp only [ne_eq, not_true_eq_false, false_and, if_false]
  cases w.search st.trace
      (searchRequest c session params.Query "all" (params.MaxItems.getD 25)
        params.CountryCode (searchFlowID w st).1) with
  | failure text r => rfl
  | response resp =>
    by_cases h200 : resp.status = 200
    · simp only [h200, not_true_eq_false, if_false]
      cases unmarshalItems resp.body <;> rfl
    · simp [h200]

/-- None of the three error texts of the search itself is an invalid scope text. -/
theorem searchFood_error_not_scope (text scope : String) :
    "failed to make search request: " ++ text ≠
        "invalid scope: " ++ scope ++ ". Must be 'all' or 'user'" ∧
      "failed to parse search response: " ++ text ≠
        "invalid scope: " ++ scope ++ ". Must be 'all' or 'user'" ∧
      ∀ status body : String, "search request failed with status " ++ status ++ ": " ++ body ≠
        "invalid scope: " ++ scope ++ ". Must be 'all' or 'user'" := by
  refine ⟨?_, ?_, ?_⟩
  · intro h
    have hd := congrArg (fun t => t.data.head?) h
    simp [String.data_append] at hd
  · intro h
    have hd := congrArg (fun t => t.data.head?) h
    simp [String.data_append] at hd
  · intro status body h
    have hd := congrArg (fun t => t.data.head?) h
    simp [String.data_append] at hd

/-- Members whose keys match sub only with null values leave the field and the
saved error as they are. -/
theorem storeMembers_null (lib : Lib) (members : List (String × Json)) (sub : String)
    (saved : Option String)
    (h : ∀ k v, (k, v) ∈ members → matchesSub k = true → v = .null) :
    storeMembers lib members sub saved = (sub, saved) := by
  induction members with
  | nil => rfl
  | cons kv rest ih =>
    obtain ⟨k, v⟩ := kv
    have hrest : ∀ k' v', (k', v') ∈ rest → matchesSub k' = true → v' = .null :=
      fun k' v' hm => h k' v' (List.mem_cons_of_mem _ hm)
    by_cases hk : matchesSub k = true
    · have hv : v = .null := h k v (List.mem_cons_self _ _) hk
      subst hv
      simp [storeMembers, hk, ih hrest]
    · simp [storeMembers, hk, ih hrest]

/-! ## The claims, continued -/

/-- C11: on the redirect-suppressed path of `Login`, (1) an absent or empty
Location header, (2) a Location that does not parse, and (3) a query whose
code parameter is empty each end in a nil session and a protocol error, with
the authorize request the only request sent, so the token endpoint is not
called; (4) otherwise the request sent next is the code exchange whose code
field is exactly the value that `Query().Get` gives for code in the Location
URL, and when that exchange is answered 200 the result of `Login` is the
session built from the bundle with no known user ID. -/
theorem login_redirect_code (lib : Lib) (w : World) (c : Client)
    (username password : String) (st : Sys) (credentials : String)
    (clientToken : TokenResponse) (text : String) (resp : Response Unit)
    (hsign : lib.signedString (loginToken c username password) (c.signingKey.getD []) =
      .ok credentials)
    (htoken : c.clientToken = some clientToken)
    (hpost : w.authorize st.trace
      (authorizeRequest c clientToken credentials (w.clock st.ticks)) = .failure text resp)
    (hredirect : stringsContains text "auto redirect is disabled" = true) :
    (resp.location = "" →
      Login lib w c username password st =
        (.returned none (some "no location header in response"),
          { trace := st.trace ++
              [authorizeRequest c clientToken credentials (w.clock st.ticks)],
            ticks := st.ticks + 1 })) ∧
    (∀ e, resp.location ≠ "" → lib.urlParse resp.location = .error e →
      Login lib w c username password st =
        (.returned none (some ("error parsing redirect URL: " ++ e)),
          { trace := st.trace ++
              [authorizeRequest c clientToken credentials (w.clock st.ticks)],
            ticks := st.ticks + 1 })) ∧
    (∀ rawQuery, resp.location ≠ "" → lib.urlParse resp.location = .ok rawQuery →
      lib.queryGet rawQuery "code" = "" →
      Login lib w c username password st =
        (.returned none (some "no code in redirect URL"),
          { trace := st.trace ++
              [authorizeRequest c clientToken credentials (w.clock st.ticks)],
            ticks := st.ticks + 1 })) ∧
    (∀ rawQuery, resp.location ≠ "" → lib.urlParse resp.location = .ok rawQuery →
      lib.queryGet rawQuery "code" ≠ "" →
      ("code", lib.queryGet rawQuery "code") ∈
        (exchangeRequest c (lib.queryGet rawQuery "code")).form ∧
      (∃ rest, (Login lib w c username password st).2.trace =
        st.trace ++ [authorizeRequest c clientToken credentials (w.clock st.ticks),
          exchangeRequest c (lib.queryGet rawQuery "code")] ++ rest) ∧
      (∀ tresp, w.token
          (st.trace ++ [authorizeRequest c clientToken credentials (w.clock st.ticks)])
          (exchangeRequest c (lib.queryGet rawQuery "code")) = .response tresp →
        tresp.status = 200 →
        Login lib w c username password st =
          createSessionFromTokenResponse lib w c "" tresp.result
            { trace := st.trace ++
                [authorizeRequest c clientToken credentials (w.clock st.ticks),
                  exchangeRequest c (lib.queryGet rawQuery "code")],
              ticks := st.ticks + 1 })) := by
  refine ⟨?_, ?_, ?_, ?_⟩
  · intro hloc
    unfold Login
    simp [hsign, htoken, timeNow, send, hpost, hredirect, hloc]
  · intro e hloc hparse
    unfold Login
    simp [hsign, htoken, timeNow, send, hpost, hredirect, hloc, hparse]
  · intro rawQuery hloc hparse hcode
    unfold Login
    simp [hsign, htoken, timeNow, send, hpost, hredirect, hloc, hparse, hcode]
  · intro rawQuery hloc hparse hcode
    refine ⟨by simp [exchangeRequest_form], ?_, ?_⟩
    · unfold Login
      simp only [hsign, htoken, timeNow, send, hpost, hredirect, hloc, hparse, hcode,
        if_true, if_false, exchangeCodeForToken_eq]
      cases w.token (st.trace ++ [authorizeRequest c clientToken credentials (w.clock st.ticks)])
          (exchangeRequest c (lib.queryGet rawQuery "code")) with
      | failure t r => exact ⟨[], by simp⟩
      | response tresp =>
        by_cases h200 : tresp.status = 200
        · simp only [h200, ne_eq, not_true_eq_false, if_false]
          obtain ⟨rest, hrest⟩ := createSession_trace lib w c "" tresp.result
            { trace := st.trace ++
                [authorizeRequest c clientToken credentials (w.clock st.ticks)] ++
                [exchangeRequest c (lib.queryGet rawQuery "code")],
              ticks := st.ticks + 1 }
          exact ⟨rest, by rw [hrest]; simp⟩
        · exact ⟨[], by simp [h200]⟩
    · intro tresp htok h200
      unfold Login
      simp [hsign, htoken, timeNow, send, hpost, hredirect, hloc, hparse, hcode,
        exchangeCodeForToken_eq, htok, h200]

/-- Witness of C11: the redirect goes to mfp://identity/callback?code=abc123&state=x
and the exchange is answered 200 with a bundle carrying `sampleIDToken`. -/
theorem login_redirect_code_witness :
    Login sampleLib
        (redirectWorld 1000 "mfp://identity/callback?code=abc123&state=x"
          (sampleBundle sampleIDToken 3600)
          (sampleUser [⟨"ann@example.com", true, true⟩] [⟨7, "MFP", "d1"⟩]))
        sampleClient "ann" "pw" initialSys =
      createSessionFromTokenResponse sampleLib
        (redirectWorld 1000 "mfp://identity/callback?code=abc123&state=x"
          (sampleBundle sampleIDToken 3600)
          (sampleUser [⟨"ann@example.com", true, true⟩] [⟨7, "MFP", "d1"⟩]))
        sampleClient "" (sampleBundle sampleIDToken 3600)
        { trace := initialSys.trace ++
            [authorizeRequest sampleClient ⟨"service-token", "Bearer", 3600, "", "", ""⟩
                "JWT.HS512.k1.pw.ann" 1000,
              exchangeRequest sampleClient "abc123"],
          ticks := initialSys.ticks + 1 } :=
  ((login_redirect_code sampleLib
      (redirectWorld 1000 "mfp://identity/callback?code=abc123&state=x"
        (sampleBundle sampleIDToken 3600)
        (sampleUser [⟨"ann@example.com", true, true⟩] [⟨7, "MFP", "d1"⟩]))
      sampleClient "ann" "pw" initialSys "JWT.HS512.k1.pw.ann"
      ⟨"service-token", "Bearer", 3600, "", "", ""⟩
      "Post /oauth/authorize: auto redirect is disabled"
      { status := 302, location := "mfp://identity/callback?code=abc123&state=x",
        body := "", result := () }
      (by decide) rfl rfl (by decide)).2.2.2 "code=abc123&state=x" (by decide) (by decide)
      (by decide)).2.2 (plainResponse 200 (sampleBundle sampleIDToken 3600)) rfl rfl

/-- C12: for a library whose `SignedString` for the method HS512 is the compact
form of golang-jwt (encoded header, encoded claims, encoded HMAC-SHA-512 of
the two under the key), the credentials that `Login` posts are those of the
token with exactly the two claims password and username, the header typ JWT,
alg HS512 and kid = keyID, signed under signingKey; they are the same for
every world, state and client that share signing key and key id (no clock
reading enters them); the signature segment is the encoded MAC of the
signing string under the signing key, and it verifies under that key. -/
theorem login_credentials (lib : Lib) (j : JwtCodec) (w : World) (c : Client)
    (username password : String) (st : Sys) (clientToken : TokenResponse)
    (hlib : ∀ token key, token.method = "HS512" →
      lib.signedString token key = .ok (signedStringHS512 j token key))
    (hmac : ∀ key message, ∀ b ∈ j.hmacSHA512 key message, b < 256)
    (htoken : c.clientToken = some clientToken) :
    (∃ rest, (Login lib w c username password st).2.trace =
      st.trace ++ authorizeRequest c clientToken
        (signedStringHS512 j (loginToken c username password) (c.signingKey.getD []))
        (w.clock st.ticks) :: rest) ∧
    ("credentials",
        signedStringHS512 j (loginToken c username password) (c.signingKey.getD [])) ∈
      (authorizeRequest c clientToken
        (signedStringHS512 j (loginToken c username password) (c.signingKey.getD []))
        (w.clock st.ticks)).form ∧
    (∀ (w2 : World) (c2 : Client) (st2 : Sys) (clientToken2 : TokenResponse),
      c2.clientToken = some clientToken2 → c2.signingKey = c.signingKey →
      c2.keyID = c.keyID →
      ∃ rest, (Login lib w2 c2 username password st2).2.trace =
        st2.trace ++ authorizeRequest c2 clientToken2
          (signedStringHS512 j (loginToken c username password) (c.signingKey.getD []))
          (w2.clock st2.ticks) :: rest) ∧
    (loginToken c username password).claims =
      [("password", password), ("username", username)] ∧
    (loginToken c username password).method = "HS512" ∧
    (loginToken c username password).header =
      [("typ", "JWT"), ("alg", "HS512"), ("kid", c.keyID)] ∧
    signedStringHS512 j (loginToken c username password) (c.signingKey.getD []) =
      signingString j (loginToken c username password) ++ "." ++
        rawURLEncodeToString (j.hmacSHA512 (c.signingKey.getD [])
          (stringBytes (signingString j (loginToken c username password)))) ∧
    verifyHS512 j (signingString j (loginToken c username password))
      (rawURLEncodeToString (j.hmacSHA512 (c.signingKey.getD [])
        (stringBytes (signingString j (loginToken c username password)))))
      (c.signingKey.getD []) = true := by
  have hmethod : ∀ c' : Client, (loginToken c' username password).method = "HS512" :=
    fun _ => rfl
  refine ⟨?_, ?_, ?_, rfl, rfl, loginToken_header c username password, rfl, ?_⟩
  · exact login_trace_head lib w c username password st _ clientToken
      (hlib _ _ (hmethod c)) htoken
  · simp [authorizeRequest_form]
  · intro w2 c2 st2 clientToken2 htoken2 hkey hkid
    have htok : loginToken c2 username password = loginToken c username password := by
      simp [loginToken, hkid]
    have h := login_trace_head lib w2 c2 username password st2 _ clientToken2
      (hlib _ _ (hmethod c2)) htoken2
    rw [htok, hkey] at h
    exact h
  · unfold verifyHS512
    rw [rawURLDecode_encode _ (hmac _ _)]
    simp

/-- Witness of C12: the client `sampleClient`, user ann, password pw and the
codec `sampleCodec`; the signature segment verifies under the signing key. -/
theorem login_credentials_witness :
    verifyHS512 sampleCodec (signingString sampleCodec (loginToken sampleClient "ann" "pw"))
      (rawURLEncodeToString (sampleCodec.hmacSHA512 (sampleClient.signingKey.getD [])
        (stringBytes (signingString sampleCodec (loginToken sampleClient "ann" "pw")))))
      (sampleClient.signingKey.getD []) = true :=
  (login_credentials (codecLib sampleCodec) sampleCodec (offlineWorld 1000) sampleClient
    "ann" "pw" initialSys ⟨"service-token", "Bearer", 3600, "", "", ""⟩
    (fun _ _ _ => rfl)
    (fun key message b hb => by
      have hx : b = (key.sum + message.sum) % 256 := List.eq_of_mem_replicate hb
      omega)
    rfl).2.2.2.2.2.2.2

/-- C13: for every `SearchFood` request with a non-nil scope, whatever text the
caller put there, exactly one request is sent and its only scope query
parameter is all; no error returned is the invalid scope error; the whole
outcome equals that of the same request with scope all, so a search with
scope user cannot be issued; and the caller's scope variable reads all
afterwards. -/
theorem searchFood_scope_overwritten
    (unmarshalItems : String → Except String (Option (List FoodSearchResult)))
    (w : World) (c : Client) (session : Option UserSession) (params : SearchFoodRequest)
    (s : String) (st : Sys) (hscope : params.Scope = some s) :
    (SearchFood unmarshalItems w c session params st).2.trace =
      st.trace ++ [searchRequest c session params.Query "all" (params.MaxItems.getD 25)
        params.CountryCode (searchFlowID w st).1] ∧
    (∀ v, ("scope", v) ∈ (searchRequest c session params.Query "all"
        (params.MaxItems.getD 25) params.CountryCode (searchFlowID w st).1).query ↔
      v = "all") ∧
    (∀ val e scope, (SearchFood unmarshalItems w c session params st).1 =
        .returned val (some e) →
      e ≠ "invalid scope: " ++ scope ++ ". Must be 'all' or 'user'") ∧
    SearchFood unmarshalItems w c session params st =
      SearchFood unmarshalItems w c session { params with Scope := some "all" } st ∧
    scopeAfterSearch params = some "all" := by
  refine ⟨?_, ?_, ?_, ?_, ?_⟩
  · rw [searchFood_eq unmarshalItems w c session params s st hscope]
  · intro v
    cases hcc : params.CountryCode with
    | none =>
      rw [searchRequest_query]
      simp +decide
    | some code =>
      rw [searchRequest_query_country]
      simp +decide
  · intro val e scope hres
    rw [searchFood_eq unmarshalItems w c session params s st hscope] at hres
    simp only at hres
    cases hw : w.search st.trace (searchRequest c session params.Query "all"
        (params.MaxItems.getD 25) params.CountryCode (searchFlowID w st).1) with
    | failure text r =>
      rw [hw] at hres
      simp only [Run.returned.injEq, Option.some.injEq] at hres
      rw [← hres.2]
      exact (searchFood_error_not_scope text scope).1
    | response resp =>
      rw [hw] at hres
      by_cases h200 : resp.status = 200
      · simp only [h200, ne_eq, not_true_eq_false, if_false] at hres
        cases hu : unmarshalItems resp.body with
        | error err =>
          rw [hu] at hres
          simp only [Run.returned.injEq, Option.some.injEq] at hres
          rw [← hres.2]
          exact (searchFood_error_not_scope err scope).2.1
        | ok items =>
          rw [hu] at hres
          simp at hres
      · simp only [h200, ne_eq, not_false_eq_true, if_true, Run.returned.injEq,
          Option.some.injEq] at hres
        rw [← hres.2]
        exact (searchFood_error_not_scope "" scope).2.2 _ _
  · rw [searchFood_eq unmarshalItems w c session params s st hscope,
      searchFood_eq unmarshalItems w c session { params with Scope := some "all" } "all" st rfl]
  · simp [scopeAfterSearch, hscope]

/-- Witness of C13: the call of the example program, query protein, scope user
and country code US; the one request sent carries the scope all. -/
theorem searchFood_scope_overwritten_witness :
    (SearchFood sampleUnmarshalItems
        (searchWorld 1000 (.response { status := 200, location := "", body := "[]", result := () }))
        sampleClient (some sampleSession) ⟨"protein", some "user", none, some "US"⟩
        initialSys).2.trace =
      initialSys.trace ++ [searchRequest sampleClient (some sampleSession) "protein" "all" 25
        (some "US")
        (searchFlowID
          (searchWorld 1000
            (.response { status := 200, location := "", body := "[]", result := () }))
          initialSys).1] :=
  (searchFood_scope_overwritten sampleUnmarshalItems
    (searchWorld 1000 (.response { status := 200, location := "", body := "[]", result := () }))
    sampleClient (some sampleSession) ⟨"protein", some "user", none, some "US"⟩ "user"
    initialSys rfl).1

/-- C14 (evaluation at the failing input): the refresh of user u1, answered 200
with a bundle, whose profile is answered 200 with the MFP link d1 and an
empty email list, panics on `Emails[0]`: the read is out of bounds. -/
theorem refresh_empty_emails_panics :
    (RefreshUserToken sampleLib
        (profileWorld 1000 (sampleBundle "idt2" 3600) (sampleUser [] [⟨7, "MFP", "d1"⟩]))
        sampleClient "u1" "rt-xyz" initialSys).1 =
      .panicked "index out of range [0] with length 0" := by
  decide

/-- C15 (counterexample): the ID token h.eyJzdWIiOjEyM30.s has three segments,
its payload is the valid JSON object with the one member sub = 123, which
carries no string sub claim, and `createSessionFromTokenResponse` fails with
the error parsing token claims, without any profile fetch. -/
theorem createSession_number_sub_fails :
    stringsSplit "h.eyJzdWIiOjEyM30.s" '.' = ["h", "eyJzdWIiOjEyM30", "s"] ∧
      rawURLDecode "eyJzdWIiOjEyM30" =
        .ok [123, 34, 115, 117, 98, 34, 58, 49, 50, 51, 125] ∧
      (∃ text, sampleLib.jsonParse [123, 34, 115, 117, 98, 34, 58, 49, 50, 51, 125] =
        .ok (.obj [("sub", .num text)])) ∧
      createSessionFromTokenResponse sampleLib
          (profileWorld 1000 (sampleBundle "h.eyJzdWIiOjEyM30.s" 3600)
            (sampleUser [⟨"ann@example.com", true, true⟩] [⟨7, "MFP", "d1"⟩]))
          sampleClient "" (sampleBundle "h.eyJzdWIiOjEyM30.s" 3600) initialSys =
        (.returned none (some ("error parsing token claims: " ++
          "json: cannot unmarshal number into Go struct field .sub of type string")),
          initialSys) :=
  ⟨by decide, by decide, ⟨"123", rfl⟩, by decide⟩

/-- C15 (amended): with no known user ID and an ID token of three segments
whose payload is JSON null, or a JSON object in which every member whose key
matches sub has the value null (in particular an object with no such
member), `createSessionFromTokenResponse` resolves the user ID to the empty
text, fetches the profile for the path /users/ followed by the empty id, and,
if that fetch is answered 200 with an email and a first MFP link of non-empty
domain user id, returns a session whose UserID is empty. -/
theorem createSession_no_sub (lib : Lib) (w : World) (c : Client)
    (tokenResp : TokenResponse) (st : Sys) (header segment signature : String)
    (payload : List Nat) (resp : Response User) (link : AccountLink)
    (hsplit : stringsSplit tokenResp.IDToken '.' = [header, segment, signature])
    (hdec : rawURLDecode segment = .ok payload)
    (hjson : lib.jsonParse payload = .ok .null ∨
      ∃ members, lib.jsonParse payload = .ok (.obj members) ∧
        ∀ k v, (k, v) ∈ members → matchesSub k = true → v = .null)
    (hresp : w.users st.trace
      (userRequest c (initialSession "" tokenResp (w.clock st.ticks))) = .response resp)
    (h200 : resp.status = 200) (hemail : resp.result.Emails ≠ [])
    (hlink : resp.result.AccountLinks.find? (fun l => decide (l.Domain = "MFP")) = some link)
    (hd : link.DomainUserID ≠ "") :
    ∃ session, createSessionFromTokenResponse lib w c "" tokenResp st =
        (.returned (some session) none,
          { trace := st.trace ++
              [userRequest c (initialSession "" tokenResp (w.clock st.ticks))],
            ticks := st.ticks + 1 }) ∧
      session.UserID = "" ∧
      (userRequest c (initialSession "" tokenResp (w.clock st.ticks))).path =
        "/users/" ++ "" ++ "?fetch_profile=true&fetch_emails=true" := by
  obtain ⟨session, hb, hid, _⟩ :=
    buildSession_success w c "" tokenResp st resp link hresp h200 hemail hlink hd
  refine ⟨session, ?_, hid, rfl⟩
  have hsub : jsonUnmarshalClaims lib payload = .ok "" := by
    rcases hjson with hnull | ⟨members, hobj, hall⟩
    · simp [jsonUnmarshalClaims, hnull]
    · simp [jsonUnmarshalClaims, hobj, storeMembers_null lib members "" none hall]
  unfold createSessionFromTokenResponse
  simp [hsplit, hdec, hsub, hb]

/-- Witness of C15: the ID token h.e30.s, whose payload is the empty JSON object. -/
theorem createSession_no_sub_witness :
    ∃ session, createSessionFromTokenResponse sampleLib
        (profileWorld 1000 (sampleBundle "h.e30.s" 3600)
          (sampleUser [⟨"ann@example.com", true, true⟩] [⟨7, "MFP", "d1"⟩]))
        sampleClient "" (sampleBundle "h.e30.s" 3600) initialSys =
        (.returned (some session) none,
          { trace := initialSys.trace ++
              [userRequest sampleClient
                (initialSession "" (sampleBundle "h.e30.s" 3600) 1000)],
            ticks := initialSys.ticks + 1 }) ∧
      session.UserID = "" ∧
      (userRequest sampleClient (initialSession "" (sampleBundle "h.e30.s" 3600) 1000)).path =
        "/users/" ++ "" ++ "?fetch_profile=true&fetch_emails=true" :=
  createSession_no_sub sampleLib
    (profileWorld 1000 (sampleBundle "h.e30.s" 3600)
      (sampleUser [⟨"ann@example.com", true, true⟩] [⟨7, "MFP", "d1"⟩]))
    sampleClient (sampleBundle "h.e30.s" 3600) initialSys "h" "e30" "s" [123, 125]
    (plainResponse 200 (sampleUser [⟨"ann@example.com", true, true⟩] [⟨7, "MFP", "d1"⟩]))
    ⟨7, "MFP", "d1"⟩ (by decide) (by decide)
    (Or.inr ⟨[], rfl, fun _ _ hm => absurd hm (List.not_mem_nil _)⟩)
    rfl rfl (by decide) (by decide) (by decide)

/-- C16 (evaluation at the failing input): the request that sets only the query
apple has a nil scope; `SearchFood` panics on the read of the scope at line
246, before any request is sent. -/
theorem searchFood_nil_scope_panics :
    SearchFood sampleUnmarshalItems
        (searchWorld 1000 (.response { status := 200, location := "", body := "[]", result := () }))
        sampleClient (some sampleSession) ⟨"apple", none, none, none⟩ initialSys =
      (.panicked "nil pointer dereference", initialSys) := by
  decide

end MFP
